import Mathlib

/-!
# Lockstep server game loop (`code/server/game.cpp`)

A shallow embedding of the server-side game loop: the player roster, the
order staging queue, the mode state machine and the tick scheduler of
`UpdateGame`, followed by theorems about them.

Conventions of the embedding.

* Machine integers are natural numbers; the only arithmetic that can wrap in
  the source, the 64-bit tick deadline, is reduced modulo `2 ^ 64`.
* A `(pointer, count)` pair of the source is a list.
* A failed `Assert`, an `InvalidCodePath` and a failed arena allocation all end
  the process; a function that can reach one returns `Option`, and `none` is
  that abort.
* The headers `common/memory.h`, `common/net_messages.h`,
  `common/simulation.h`, `net_events.h`, `net_commands.h` and
  `common/order_serialization.h` are not part of the sources at hand.  Their
  constants and the arena footprint of their codec functions are collected in
  the structure `headers`; the simulation kernel is the structure
  `simulation_api`; an encoded record is represented by the value it encodes.
-/

namespace Lockstep

/-! ## Scalar types -/

abbrev memsize := Nat
abbrev net_client_id := Nat
abbrev simulation_player_id := Nat
abbrev simulation_unit_id := Nat
abbrev uusec64 := Nat

/-- Number of values of the 64-bit type `uusec64`. -/
def UUSEC64_RANGE : Nat := 2 ^ 64

/-- Number of values of the type `memsize`. -/
def MEMSIZE_RANGE : Nat := 2 ^ 64

/-! ## Records exchanged with the transport and the simulation -/

/-- Modelled from the spec: the `target` coordinate of an order (section 6);
its type is declared in a header that is not among the sources. -/
structure ivec2 where
  X : Int
  Y : Int
deriving DecidableEq, Repr, Inhabited

/-- Order handed to the simulation: `PlayerID`, the unit ids (the source's
`UnitIDs` pointer with `UnitCount`) and `Target`. -/
structure simulation_order where
  PlayerID : simulation_player_id
  UnitIDs : List simulation_unit_id
  Target : ivec2
deriving DecidableEq, Repr, Inhabited

/-- The `UnitCount` field: the length of the unit id array. -/
def simulation_order.UnitCount (Order : simulation_order) : memsize :=
  Order.UnitIDs.length

/-- Order as it travels inside an `order_list` message. -/
structure net_message_order where
  PlayerID : simulation_player_id
  UnitIDs : List simulation_unit_id
  Target : ivec2
deriving DecidableEq, Repr, Inhabited

/-- The `UnitCount` field of a network order. -/
def net_message_order.UnitCount (Order : net_message_order) : memsize :=
  Order.UnitIDs.length

/-- Modelled from the spec: the message payloads of section 4.4 and 6
(`start`, `reply`, `order`, `order_list`); `unknown` stands for a payload
whose type tag is none of them. -/
inductive net_message where
  | start (PlayerCount : memsize) (PlayerIndex : memsize)
  | reply
  | order (UnitIDs : List simulation_unit_id) (Target : ivec2)
  | order_list (Orders : List net_message_order)
  | unknown
deriving DecidableEq, Repr, Inhabited

/-- Modelled from the spec: the inbound events of section 4.4
(`connect`, `disconnect`, `message`); `unknown` stands for a record whose type
tag is none of them. -/
inductive net_event where
  | connect (ClientID : net_client_id)
  | disconnect (ClientID : net_client_id)
  | message (ClientID : net_client_id) (Message : net_message)
  | unknown
deriving DecidableEq, Repr, Inhabited

/-- Modelled from the spec: the outbound commands of section 4.4
(`send`, `broadcast`, `shutdown`). -/
inductive net_command where
  | send (ClientID : net_client_id) (Message : net_message)
  | broadcast (ClientIDs : List net_client_id) (Message : net_message)
  | shutdown
deriving DecidableEq, Repr, Inhabited

/-! ## Declarations of the missing headers -/

/-- Constants of the headers that are not among the sources, and the number of
arena bytes each codec function takes from the allocator it is given. -/
structure headers where
  SIMULATION_UNDEFINED_PLAYER_ID : simulation_player_id
  SimulationTickDuration : Nat
  NET_COMMAND_MAX_LENGTH : memsize
  NET_MESSAGE_MAX_LENGTH : memsize
  sizeof_game_state : memsize
  sizeof_simulation_order : memsize
  sizeof_net_message_order : memsize
  UnserializeOrderNetMessageBytes : List simulation_unit_id → ivec2 → memsize
  SerializeOrderBytes : simulation_order → memsize
  UnserializeOrderBytes : simulation_order → memsize
  SerializeStartNetMessageBytes : memsize → memsize → memsize
  SerializeSendNetCommandBytes : net_client_id → net_message → memsize
  SerializeOrderListNetMessageBytes : List net_message_order → memsize
  SerializeBroadcastNetCommandBytes : List net_client_id → net_message → memsize
  SerializeShutdownNetCommandBytes : memsize

/-- Modelled from the spec: the simulation facade of section 4.7 (`init`,
`create_player`, `tick`) over an arbitrary simulation state `σ`. -/
structure simulation_api (σ : Type) where
  InitSimulation : σ → σ
  SimulationCreatePlayer : σ → simulation_player_id × σ
  TickSimulation : σ → List simulation_order → σ

/-! ## Arena allocator -/

/-- Modelled from the spec: the bump allocator of section 4.1, a region of
`Length` bytes of which the first `Used` are handed out. -/
structure linear_allocator where
  Length : memsize
  Used : memsize
deriving DecidableEq, Repr, Inhabited

/-- Modelled from the spec: an allocator over a fresh region of `Length` bytes. -/
def InitLinearAllocator (Length : memsize) : linear_allocator :=
  { Length := Length, Used := 0 }

/-- Modelled from the spec: `free_space()`. -/
def GetLinearAllocatorFree (Allocator : linear_allocator) : memsize :=
  Allocator.Length - Allocator.Used

/-- Modelled from the spec: `allocate(n)`, which fails if `free < n`. -/
def LinearAllocate (Allocator : linear_allocator) (Size : memsize) : Option linear_allocator :=
  if GetLinearAllocatorFree Allocator < Size then none
  else some { Allocator with Used := Allocator.Used + Size }

/-- Modelled from the spec: `checkpoint()`, the current bump position. -/
def CreateLinearAllocatorCheckpoint (Allocator : linear_allocator) : memsize :=
  Allocator.Used

/-- Modelled from the spec: `rewind(token)`, restoring the bump position. -/
def ReleaseLinearAllocatorCheckpoint (Allocator : linear_allocator) (Checkpoint : memsize) :
    linear_allocator :=
  { Allocator with Used := Checkpoint }

/-- The `Assert` of `lib/assert.h`: the process aborts when the condition fails. -/
def Assert (Condition : Prop) [Decidable Condition] : Option Unit :=
  if Condition then some () else none

/-! ## Chunk queue -/

/-- Modelled from the spec: the chunk queue of section 4.2, a FIFO of records,
oldest first. -/
abbrev chunk_list (α : Type) := List α

/-- Modelled from the spec: `count` reports the records remaining. -/
def chunk_list.Count {α : Type} (List : chunk_list α) : memsize :=
  List.length

/-- Modelled from the spec: a queue without records. -/
def InitChunkList {α : Type} : chunk_list α := []

/-- Modelled from the spec: `write(bytes)` appends a record. -/
def ChunkListWrite {α : Type} (List : chunk_list α) (Chunk : α) : chunk_list α :=
  List ++ [Chunk]

/-- Modelled from the spec: `read()` pops the oldest record; `none` is the
empty record returned by an empty queue. -/
def ChunkListRead {α : Type} (List : chunk_list α) : Option α × chunk_list α :=
  match List with
  | [] => (none, [])
  | Chunk :: Rest => (some Chunk, Rest)

/-- Modelled from the spec: `reset()` drops all records. -/
def ResetChunkList {α : Type} (_List : chunk_list α) : chunk_list α := []

/-! ## Player roster -/

structure player where
  SimID : simulation_player_id
  ClientID : net_client_id
deriving DecidableEq, Repr, Inhabited

def PLAYERS_MAX : Nat := 1

/-- The roster: `Players` is the array of `PLAYERS_MAX` slots, `Count` the
number of slots in use.  A slot outside the list reads as the default player. -/
structure player_set where
  Players : List player
  Count : memsize
deriving DecidableEq, Repr, Inhabited

/-- The slot `Set->Players[I]`. -/
def player_set.At (Set : player_set) (I : memsize) : player :=
  Set.Players.getD I default

inductive game_mode where
  | game_mode_waiting_for_clients
  | game_mode_active
  | game_mode_disconnecting
  | game_mode_stopped
deriving DecidableEq, Repr, Inhabited

open game_mode

/-- The game state.  The order queue holds the serialized orders; each record
is represented by the order it encodes. -/
structure game_state (σ : Type) where
  Mode : game_mode
  Allocator : linear_allocator
  PlayerSet : player_set
  OrderQueue : chunk_list simulation_order
  NextTickTime : uusec64
  Sim : σ

/-! ## Roster operations and the game loop -/

def InitPlayerSet (Set : player_set) : player_set :=
  { Set with Count := 0 }

def FindPlayerByClientID (Set : player_set) (ID : net_client_id) : Option memsize :=
  (List.range Set.Count).find? (fun I => decide ((Set.At I).ClientID = ID))

def FindSimIDByClientID (h : headers) (Set : player_set) (ClientID : net_client_id) :
    simulation_player_id :=
  match (List.range Set.Count).find? (fun I => decide ((Set.At I).ClientID = ClientID)) with
  | some I => (Set.At I).SimID
  | none => h.SIMULATION_UNDEFINED_PLAYER_ID

def AddPlayer (Set : player_set) (NetID : net_client_id) : player_set :=
  { Players := Set.Players.set Set.Count { ClientID := NetID, SimID := 0 },
    Count := Set.Count + 1 }

/-- The client ids `IDs[0 .. Count-1]` collected by `Broadcast`. -/
def BroadcastIDs (Set : player_set) : List net_client_id :=
  (List.range Set.Count).map (fun I => (Set.At I).ClientID)

def Broadcast (h : headers) (Set : player_set) (Message : net_message)
    (Commands : chunk_list net_command) (Allocator : linear_allocator) :
    Option (linear_allocator × chunk_list net_command) := do
  let IDs := BroadcastIDs Set
  let MemCheckpoint := CreateLinearAllocatorCheckpoint Allocator
  Assert (GetLinearAllocatorFree Allocator ≥ h.NET_COMMAND_MAX_LENGTH)
  let Allocator ← LinearAllocate Allocator (h.SerializeBroadcastNetCommandBytes IDs Message)
  let Commands := ChunkListWrite Commands (net_command.broadcast IDs Message)
  some (ReleaseLinearAllocatorCheckpoint Allocator MemCheckpoint, Commands)

def RemovePlayer (Set : player_set) (_Index : memsize) : player_set :=
  { Set with Count := Set.Count - 1 }

/-- The function `InitGame`: `Prior` is what the caller's memory region holds
before the call, `MemoryLength` its length. -/
def InitGame {σ : Type} (h : headers) (MemoryLength : memsize) (Prior : game_state σ) :
    Option (game_state σ) := do
  let Length := (MemoryLength + MEMSIZE_RANGE - h.sizeof_game_state % MEMSIZE_RANGE) % MEMSIZE_RANGE
  let Allocator := InitLinearAllocator Length
  let Allocator ← LinearAllocate Allocator (1024 * 20)
  some { Prior with
    Allocator := Allocator,
    OrderQueue := InitChunkList,
    PlayerSet := InitPlayerSet Prior.PlayerSet }

/-- First loop of `StartGame`: slot `I` receives the id returned by
`SimulationCreatePlayer`, for each index of the list in turn. -/
def StartGame.CreatePlayers {σ : Type} (api : simulation_api σ) :
    List memsize → List player → σ → List player × σ
  | [], Players, Sim => (Players, Sim)
  | I :: Rest, Players, Sim =>
    let Created := api.SimulationCreatePlayer Sim
    StartGame.CreatePlayers api Rest
      (Players.set I { Players.getD I default with SimID := Created.1 }) Created.2

/-- Second loop of `StartGame`: one `send` of a `start` message per index of
the list, each inside its own checkpoint. -/
def StartGame.SendStarts (h : headers) (Set : player_set) (Allocator : linear_allocator) :
    List memsize → chunk_list net_command → Option (chunk_list net_command)
  | [], NetCmds => some NetCmds
  | I :: Rest, NetCmds => do
    Assert (GetLinearAllocatorFree Allocator ≥ h.NET_MESSAGE_MAX_LENGTH + h.NET_COMMAND_MAX_LENGTH)
    let Message := net_message.start Set.Count I
    let A1 ← LinearAllocate Allocator (h.SerializeStartNetMessageBytes Set.Count I)
    let Command := net_command.send (Set.At I).ClientID Message
    let _A2 ← LinearAllocate A1 (h.SerializeSendNetCommandBytes (Set.At I).ClientID Message)
    StartGame.SendStarts h Set Allocator Rest (ChunkListWrite NetCmds Command)

def StartGame {σ : Type} (h : headers) (api : simulation_api σ) (State : game_state σ)
    (NetCmds : chunk_list net_command) (Time : uusec64) :
    Option (game_state σ × chunk_list net_command) := do
  let Set := State.PlayerSet
  let Sim := api.InitSimulation State.Sim
  let Created := StartGame.CreatePlayers api (List.range Set.Count) Set.Players Sim
  let Set : player_set := { Set with Players := Created.1 }
  let NetCmds ← StartGame.SendStarts h Set State.Allocator (List.range Set.Count) NetCmds
  some ({ State with
      PlayerSet := Set,
      Sim := Created.2,
      NextTickTime := (Time + h.SimulationTickDuration * 1000) % UUSEC64_RANGE,
      Mode := game_mode_active }, NetCmds)

def ProcessMessageEvent (h : headers) (ClientID : net_client_id) (Message : net_message)
    (PlayerSet : player_set) (Allocator : linear_allocator)
    (OrderQueue : chunk_list simulation_order) :
    Option (linear_allocator × chunk_list simulation_order) :=
  match Message with
  | net_message.reply => some (Allocator, OrderQueue)
  | net_message.order UnitIDs Target => do
    let MemCheckpoint := CreateLinearAllocatorCheckpoint Allocator
    let A1 ← LinearAllocate Allocator (h.UnserializeOrderNetMessageBytes UnitIDs Target)
    let PlayerID := FindSimIDByClientID h PlayerSet ClientID
    if PlayerID ≠ h.SIMULATION_UNDEFINED_PLAYER_ID then do
      let Order : simulation_order := { PlayerID := PlayerID, UnitIDs := UnitIDs, Target := Target }
      let A2 ← LinearAllocate A1 (h.SerializeOrderBytes Order)
      some (ReleaseLinearAllocatorCheckpoint A2 MemCheckpoint, ChunkListWrite OrderQueue Order)
    else
      some (ReleaseLinearAllocatorCheckpoint A1 MemCheckpoint, OrderQueue)
  | _ => none

/-- The function `ProcessNetEvents`: the events are read from the queue, oldest
first, until it is empty. -/
def ProcessNetEvents {σ : Type} (h : headers) :
    game_state σ → chunk_list net_event → Option (game_state σ)
  | State, [] => some State
  | State, Event :: Events =>
    match Event with
    | net_event.connect ClientID =>
      if State.PlayerSet.Count ≠ PLAYERS_MAX then
        ProcessNetEvents h { State with PlayerSet := AddPlayer State.PlayerSet ClientID } Events
      else
        ProcessNetEvents h State Events
    | net_event.disconnect ClientID =>
      match FindPlayerByClientID State.PlayerSet ClientID with
      | some PlayerIndex =>
        ProcessNetEvents h { State with PlayerSet := RemovePlayer State.PlayerSet PlayerIndex } Events
      | none => ProcessNetEvents h State Events
    | net_event.message ClientID Message =>
      match ProcessMessageEvent h ClientID Message State.PlayerSet State.Allocator State.OrderQueue with
      | some (Allocator, OrderQueue) =>
        ProcessNetEvents h { State with Allocator := Allocator, OrderQueue := OrderQueue } Events
      | none => none
    | net_event.unknown => none

/-- Copy loop of `BroadcastOrders`: each simulation order becomes a network
order whose unit ids are copied into `sizeof(ui16) * UnitCount` fresh bytes. -/
def BroadcastOrders.Copy :
    List simulation_order → linear_allocator → Option (List net_message_order × linear_allocator)
  | [], Allocator => some ([], Allocator)
  | SimOrder :: Rest, Allocator => do
    let A1 ← LinearAllocate Allocator (2 * SimOrder.UnitCount)
    let NetOrder : net_message_order :=
      { PlayerID := SimOrder.PlayerID, UnitIDs := SimOrder.UnitIDs, Target := SimOrder.Target }
    let Copied ← BroadcastOrders.Copy Rest A1
    some (NetOrder :: Copied.1, Copied.2)

def BroadcastOrders (h : headers) (PlayerSet : player_set) (SimOrderList : List simulation_order)
    (Commands : chunk_list net_command) (Allocator : linear_allocator) :
    Option (linear_allocator × chunk_list net_command) := do
  let MemCheckpoint := CreateLinearAllocatorCheckpoint Allocator
  let Copied ←
    if SimOrderList.length ≠ 0 then do
      let A1 ← LinearAllocate Allocator (h.sizeof_net_message_order * SimOrderList.length)
      BroadcastOrders.Copy SimOrderList A1
    else some ([], Allocator)
  let Message := net_message.order_list Copied.1
  let A2 ← LinearAllocate Copied.2 (h.SerializeOrderListNetMessageBytes Copied.1)
  let Sent ← Broadcast h PlayerSet Message Commands A2
  some (ReleaseLinearAllocatorCheckpoint Sent.1 MemCheckpoint, Sent.2)

/-- Drain loop of `UpdateGame`: `for(I = 0; I < OrderQueue.Count; ++I)` reads one
record and stores the decoded order in slot `I`.  The bound is the queue's
current count, which every read lowers. -/
def UpdateGame.Drain (h : headers) :
    memsize → chunk_list simulation_order → List simulation_order → linear_allocator →
    Option (List simulation_order × chunk_list simulation_order × linear_allocator)
  | _, [], Orders, Allocator => some (Orders, [], Allocator)
  | I, Order :: Rest, Orders, Allocator =>
    if I < chunk_list.Count (Order :: Rest) then do
      let A1 ← LinearAllocate Allocator (h.UnserializeOrderBytes Order)
      UpdateGame.Drain h (I + 1) Rest (Orders.set I Order) A1
    else some (Orders, Order :: Rest, Allocator)

/-- What `UpdateGame` leaves behind: the state, the outbound queue, and the
values behind the `Running` and `Delay` pointers.  The inbound queue is empty
on return. -/
structure update_result (σ : Type) where
  State : game_state σ
  Commands : chunk_list net_command
  Running : Bool
  Delay : uusec64

/-- The function `UpdateGame`.  `Running` is the value behind the pointer at
entry; `Stale I` is what slot `I` of the freshly allocated order array holds
before the drain loop writes to it (`LinearAllocate` does not clear memory). -/
def UpdateGame {σ : Type} (h : headers) (api : simulation_api σ)
    (Stale : memsize → simulation_order) (Time : uusec64) (TerminationRequested : Bool)
    (Events : chunk_list net_event) (Commands : chunk_list net_command) (Running : Bool)
    (State : game_state σ) : Option (update_result σ) := do
  let State ← ProcessNetEvents h State Events
  if State.Mode ≠ game_mode_disconnecting ∧ TerminationRequested = true then do
    let MemCheckpoint := CreateLinearAllocatorCheckpoint State.Allocator
    Assert (GetLinearAllocatorFree State.Allocator ≥ h.NET_COMMAND_MAX_LENGTH)
    let A1 ← LinearAllocate State.Allocator h.SerializeShutdownNetCommandBytes
    let Commands := ChunkListWrite Commands net_command.shutdown
    some { State := { State with
             Mode := game_mode_disconnecting,
             Allocator := ReleaseLinearAllocatorCheckpoint A1 MemCheckpoint },
           Commands := Commands, Running := Running, Delay := 1000 }
  else if State.Mode ≠ game_mode_waiting_for_clients ∧ State.PlayerSet.Count = 0 then do
    let Emitted ←
      if State.Mode ≠ game_mode_disconnecting then do
        let MemCheckpoint := CreateLinearAllocatorCheckpoint State.Allocator
        Assert (GetLinearAllocatorFree State.Allocator ≥ h.NET_COMMAND_MAX_LENGTH)
        let A1 ← LinearAllocate State.Allocator h.SerializeShutdownNetCommandBytes
        some (ReleaseLinearAllocatorCheckpoint A1 MemCheckpoint,
              ChunkListWrite Commands net_command.shutdown)
      else some (State.Allocator, Commands)
    some { State := { State with Mode := game_mode_stopped, Allocator := Emitted.1 },
           Commands := Emitted.2, Running := false, Delay := 1000 }
  else if State.Mode = game_mode_waiting_for_clients ∧ State.PlayerSet.Count = PLAYERS_MAX then do
    let Started ← StartGame h api State Commands Time
    some { State := Started.1, Commands := Started.2, Running := Running, Delay := 1000 }
  else if State.Mode = game_mode_active then
    if Time ≥ State.NextTickTime then do
      let MemCheckpoint := CreateLinearAllocatorCheckpoint State.Allocator
      let Count := chunk_list.Count State.OrderQueue
      let Drained ←
        if Count ≠ 0 then do
          let A1 ← LinearAllocate State.Allocator (h.sizeof_simulation_order * Count)
          UpdateGame.Drain h 0 State.OrderQueue ((List.range Count).map Stale) A1
        else some ([], State.OrderQueue, State.Allocator)
      let Sent ← BroadcastOrders h State.PlayerSet Drained.1 Commands Drained.2.2
      let Sim := api.TickSimulation State.Sim Drained.1
      let OrderQueue := ResetChunkList Drained.2.1
      let Allocator := ReleaseLinearAllocatorCheckpoint Sent.1 MemCheckpoint
      some { State := { State with
               Sim := Sim, OrderQueue := OrderQueue, Allocator := Allocator,
               NextTickTime := (State.NextTickTime + h.SimulationTickDuration * 1000) % UUSEC64_RANGE },
             Commands := Sent.2, Running := Running, Delay := 1000 }
    else
      some { State := State, Commands := Commands, Running := Running, Delay := 1000 }
  else if State.Mode = game_mode_disconnecting then
    some { State := State, Commands := Commands, Running := Running, Delay := 1000 }
  else
    some { State := State, Commands := Commands, Running := Running, Delay := 1000 }

/-! ## A sample instantiation

Used to evaluate the embedding on concrete inputs: a simulation that records
the calls it receives, and a set of header values with the tick duration of
the reference scenarios (20 ms). -/

/-- A call received by the recording simulation. -/
inductive sim_call where
  | init
  | create_player
  | tick (Orders : List simulation_order)
deriving DecidableEq, Repr, Inhabited

/-- A simulation whose state is the list of calls made since `init`; the
players created receive the ids 0, 1, .., 7 in turn. -/
def trace_api : simulation_api (List sim_call) where
  InitSimulation := fun _ => [sim_call.init]
  SimulationCreatePlayer := fun S =>
    ((S.filter (fun Call => decide (Call = sim_call.create_player))).length % 8,
     S ++ [sim_call.create_player])
  TickSimulation := fun S Orders => S ++ [sim_call.tick Orders]

/-- Sample header values: sentinel 8, tick duration 20 ms. -/
def sample_headers : headers where
  SIMULATION_UNDEFINED_PLAYER_ID := 8
  SimulationTickDuration := 20
  NET_COMMAND_MAX_LENGTH := 2048
  NET_MESSAGE_MAX_LENGTH := 1024
  sizeof_game_state := 256
  sizeof_simulation_order := 32
  sizeof_net_message_order := 32
  UnserializeOrderNetMessageBytes := fun UnitIDs _ => 2 * UnitIDs.length
  SerializeOrderBytes := fun Order => 16 + 2 * Order.UnitIDs.length
  UnserializeOrderBytes := fun Order => 2 * Order.UnitIDs.length
  SerializeStartNetMessageBytes := fun _ _ => 3
  SerializeSendNetCommandBytes := fun _ _ => 16
  SerializeOrderListNetMessageBytes := fun Orders => 4 + 32 * Orders.length
  SerializeBroadcastNetCommandBytes := fun IDs _ => 64 + 8 * IDs.length
  SerializeShutdownNetCommandBytes := 1

/-- A zero-filled memory region seen as a game state. -/
def zeroed_memory : game_state (List sim_call) :=
  { Mode := game_mode_waiting_for_clients,
    Allocator := { Length := 0, Used := 0 },
    PlayerSet := { Players := [{ SimID := 0, ClientID := 0 }], Count := 0 },
    OrderQueue := [],
    NextTickTime := 0,
    Sim := [] }

/-- The state `InitGame` produces over a zero-filled region of 100000 bytes. -/
def sample_initial : game_state (List sim_call) :=
  { zeroed_memory with Allocator := { Length := 99744, Used := 20480 } }

/-- A sample content of uninitialised order slots. -/
def sample_stale : memsize → simulation_order :=
  fun _ => { PlayerID := 99, UnitIDs := [], Target := { X := 0, Y := 0 } }

/-- The sample game after client 7 has connected at time 0 and the game has
started: one player with simulation id 0, first tick due at 20000. -/
def sample_active : game_state (List sim_call) :=
  { sample_initial with
    Mode := game_mode_active,
    PlayerSet := { Players := [{ SimID := 0, ClientID := 7 }], Count := 1 },
    NextTickTime := 20000,
    Sim := [sim_call.init, sim_call.create_player] }

/-! ## Auxiliary definitions used to state the theorems -/

/-- The simulation state after `n` calls of `SimulationCreatePlayer`. -/
def CreatedSim {σ : Type} (api : simulation_api σ) : Nat → σ → σ
  | 0, Sim => Sim
  | n + 1, Sim => CreatedSim api n (api.SimulationCreatePlayer Sim).2

/-- The id returned by call number `n` (counted from 0) of
`SimulationCreatePlayer`. -/
def CreatedID {σ : Type} (api : simulation_api σ) (n : Nat) (Sim : σ) : simulation_player_id :=
  (api.SimulationCreatePlayer (CreatedSim api n Sim)).1

/-- The order array as the drain loop of `UpdateGame` leaves it, when started
at index `I` on the given queue and array. -/
def DrainedOrders :
    memsize → chunk_list simulation_order → List simulation_order → List simulation_order
  | _, [], Orders => Orders
  | I, Order :: Rest, Orders =>
    if I < chunk_list.Count (Order :: Rest) then DrainedOrders (I + 1) Rest (Orders.set I Order)
    else Orders

/-- Arena bytes the drain loop takes for the orders it decodes. -/
def DrainedBytes (h : headers) : memsize → chunk_list simulation_order → memsize
  | _, [] => 0
  | I, Order :: Rest =>
    if I < chunk_list.Count (Order :: Rest) then
      h.UnserializeOrderBytes Order + DrainedBytes h (I + 1) Rest
    else 0

/-- The order list a tick frame builds from the staging queue: an array of
`Count` slots, unwritten ones holding `Stale`, run through the drain loop. -/
def TickOrderList (Stale : memsize → simulation_order) (Queue : chunk_list simulation_order) :
    List simulation_order :=
  if chunk_list.Count Queue ≠ 0 then
    DrainedOrders 0 Queue ((List.range (chunk_list.Count Queue)).map Stale)
  else []

/-- The network order `BroadcastOrders` copies a simulation order into. -/
def NetOrderOf (Order : simulation_order) : net_message_order :=
  { PlayerID := Order.PlayerID, UnitIDs := Order.UnitIDs, Target := Order.Target }

/-- Arena bytes `BroadcastOrders` takes for the unit ids it copies. -/
def CopyBytes (Orders : List simulation_order) : memsize :=
  (Orders.map (fun Order => 2 * Order.UnitCount)).sum

/-- Arena bytes `BroadcastOrders` needs to broadcast the given order list. -/
def BroadcastOrdersBytes (h : headers) (Set : player_set) (Orders : List simulation_order) :
    memsize :=
  (if Orders.length ≠ 0 then h.sizeof_net_message_order * Orders.length + CopyBytes Orders
    else 0) +
  h.SerializeOrderListNetMessageBytes (Orders.map NetOrderOf) +
  max h.NET_COMMAND_MAX_LENGTH
    (h.SerializeBroadcastNetCommandBytes (BroadcastIDs Set)
      (net_message.order_list (Orders.map NetOrderOf)))

/-- Arena bytes a tick frame needs: the order array, the decoded orders and the
broadcast. -/
def TickFrameBytes (h : headers) (Set : player_set) (Stale : memsize → simulation_order)
    (Queue : chunk_list simulation_order) : memsize :=
  (if chunk_list.Count Queue ≠ 0 then
      h.sizeof_simulation_order * chunk_list.Count Queue + DrainedBytes h 0 Queue
    else 0) +
  BroadcastOrdersBytes h Set (TickOrderList Stale Queue)

/-- The states the host loop can observe: what `InitGame` makes of a memory
region (whatever it held, the roster array having `PLAYERS_MAX` slots), and
what any returning `UpdateGame` call makes of such a state. -/
inductive Reachable {σ : Type} (h : headers) (api : simulation_api σ) : game_state σ → Prop
  | init (MemoryLength : memsize) (Prior s : game_state σ)
      (hslots : Prior.PlayerSet.Players.length = PLAYERS_MAX)
      (hinit : InitGame h MemoryLength Prior = some s) : Reachable h api s
  | update (Stale : memsize → simulation_order) (Time : uusec64) (Term : Bool)
      (Events : chunk_list net_event) (Commands : chunk_list net_command) (Running : Bool)
      (s : game_state σ) (r : update_result σ)
      (hs : Reachable h api s)
      (hr : UpdateGame h api Stale Time Term Events Commands Running s = some r) :
      Reachable h api r.State

/-- Every roster entry in use has a simulation id other than the sentinel. -/
def PlayersDefined (h : headers) (Set : player_set) : Prop :=
  ∀ I, I < Set.Count → (Set.At I).SimID ≠ h.SIMULATION_UNDEFINED_PLAYER_ID

/-- The sample game after client 7 has left and client 9 has joined within one
update of the running game. -/
def sample_late_join : game_state (List sim_call) :=
  { sample_active with
    PlayerSet := { Players := [{ SimID := 0, ClientID := 9 }], Count := 1 } }

/-- The client ids of the roster entries in use are pairwise distinct. -/
def ClientIDsDistinct (Set : player_set) : Prop :=
  ∀ I J, I < Set.Count → J < Set.Count →
    (Set.At I).ClientID = (Set.At J).ClientID → I = J

/-- The sample game after its only client, 7, has left at time 5000: the mode
is `game_mode_stopped` and the roster is empty. -/
def sample_stopped : game_state (List sim_call) :=
  { sample_active with
    Mode := game_mode_stopped,
    PlayerSet := { Players := [{ SimID := 0, ClientID := 7 }], Count := 0 } }

/-- A memory region whose mode field holds `game_mode_active`, all other fields
zero. -/
def stale_memory : game_state (List sim_call) :=
  { zeroed_memory with Mode := game_mode_active }

/-! ## Basic facts about the arena -/

theorem LinearAllocate_of_le (A : linear_allocator) (n : memsize)
    (hn : n ≤ GetLinearAllocatorFree A) :
    LinearAllocate A n = some { A with Used := A.Used + n } := by
  unfold LinearAllocate
  rw [if_neg (Nat.not_lt.mpr hn)]

theorem LinearAllocate_eq_some_iff (A B : linear_allocator) (n : memsize) :
    LinearAllocate A n = some B ↔
      n ≤ GetLinearAllocatorFree A ∧ B = { A with Used := A.Used + n } := by
  unfold LinearAllocate
  by_cases hlt : GetLinearAllocatorFree A < n
  · rw [if_pos hlt]
    constructor
    · intro hB
      exact absurd hB (by simp)
    · intro hB
      exact absurd hB.1 (Nat.not_le.mpr hlt)
  · rw [if_neg hlt]
    constructor
    · intro hB
      exact ⟨Nat.not_lt.mp hlt, (Option.some.inj hB).symm⟩
    · intro hB
      rw [hB.2]

theorem Assert_of (c : Prop) [Decidable c] (hc : c) : Assert c = some () := by
  unfold Assert
  rw [if_pos hc]

theorem Assert_eq_some_iff (c : Prop) [Decidable c] (u : Unit) : Assert c = some u ↔ c := by
  unfold Assert
  by_cases hc : c <;> simp [hc]

theorem Release_after_allocate (A : linear_allocator) (n : memsize) :
    ReleaseLinearAllocatorCheckpoint { A with Used := A.Used + n }
      (CreateLinearAllocatorCheckpoint A) = A := by
  cases A
  rfl

/-! ## Draining the inbound events -/

theorem ProcessMessageEvent_allocator (h : headers) (c : net_client_id) (m : net_message)
    (Set : player_set) (A A1 : linear_allocator) (Q Q1 : chunk_list simulation_order)
    (hm : ProcessMessageEvent h c m Set A Q = some (A1, Q1)) : A1 = A := by
  cases m with
  | reply =>
    simp [ProcessMessageEvent] at hm
    exact hm.1.symm
  | order u t =>
    simp only [ProcessMessageEvent] at hm
    cases hA : LinearAllocate A (h.UnserializeOrderNetMessageBytes u t) with
    | none => simp [hA] at hm
    | some B =>
      simp only [hA, Option.bind_eq_bind, Option.some_bind] at hm
      rw [LinearAllocate_eq_some_iff] at hA
      split at hm
      · cases hB : LinearAllocate B (h.SerializeOrderBytes
            { PlayerID := FindSimIDByClientID h Set c, UnitIDs := u, Target := t }) with
        | none => simp [hB] at hm
        | some B2 =>
          simp only [hB, Option.some_bind, Option.some.injEq, Prod.mk.injEq] at hm
          rw [LinearAllocate_eq_some_iff] at hB
          rw [← hm.1, hB.2, hA.2]
          cases A
          rfl
      · simp only [Option.some.injEq, Prod.mk.injEq] at hm
        rw [← hm.1, hA.2]
        cases A
        rfl
  | start a b => exact absurd hm (by simp [ProcessMessageEvent])
  | order_list l => exact absurd hm (by simp [ProcessMessageEvent])
  | unknown => exact absurd hm (by simp [ProcessMessageEvent])

/-- Draining events changes neither the mode, the tick deadline, the
simulation nor the arena. -/
theorem ProcessNetEvents_frame {σ : Type} (h : headers) (Events : chunk_list net_event) :
    ∀ (s s1 : game_state σ), ProcessNetEvents h s Events = some s1 →
      s1.Mode = s.Mode ∧ s1.NextTickTime = s.NextTickTime ∧ s1.Sim = s.Sim ∧
        s1.Allocator = s.Allocator := by
  induction Events with
  | nil =>
    intro s s1 hs
    simp [ProcessNetEvents] at hs
    subst hs
    exact ⟨rfl, rfl, rfl, rfl⟩
  | cons e rest ih =>
    intro s s1 hs
    cases e with
    | connect c =>
      simp only [ProcessNetEvents] at hs
      split at hs
      · have hi := ih _ _ hs
        simpa using hi
      · exact ih _ _ hs
    | disconnect c =>
      simp only [ProcessNetEvents] at hs
      split at hs
      · have hi := ih _ _ hs
        simpa using hi
      · exact ih _ _ hs
    | message c m =>
      simp only [ProcessNetEvents] at hs
      split at hs
      · rename_i A1 Q1 hm
        have hA := ProcessMessageEvent_allocator h c m _ _ _ _ _ hm
        have hi := ih _ _ hs
        simpa [hA] using hi
      · exact absurd hs (by simp)
    | unknown => exact absurd hs (by simp [ProcessNetEvents])

/-! ## Orders from senders without a simulation id, and replies -/

/-- C8: an order message whose sender `FindSimIDByClientID` maps to
`SIMULATION_UNDEFINED_PLAYER_ID` is dropped: `ProcessMessageEvent` returns
(it does not abort, provided the arena can hold the decoded message), and it
returns the order queue and the arena exactly as it received them; draining the
event leaves the whole game state, roster included, unchanged.  A reply
message changes no state either. -/
theorem ProcessMessageEvent_drops_undefined_sender {σ : Type} (h : headers)
    (s : game_state σ) (c : net_client_id) (u : List simulation_unit_id) (t : ivec2)
    (hfind : FindSimIDByClientID h s.PlayerSet c = h.SIMULATION_UNDEFINED_PLAYER_ID)
    (hfit : h.UnserializeOrderNetMessageBytes u t ≤ GetLinearAllocatorFree s.Allocator) :
    ProcessMessageEvent h c (net_message.order u t) s.PlayerSet s.Allocator s.OrderQueue
        = some (s.Allocator, s.OrderQueue) ∧
      ProcessNetEvents h s [net_event.message c (net_message.order u t)] = some s ∧
      ProcessMessageEvent h c net_message.reply s.PlayerSet s.Allocator s.OrderQueue
        = some (s.Allocator, s.OrderQueue) ∧
      ProcessNetEvents h s [net_event.message c net_message.reply] = some s := by
  have horder : ProcessMessageEvent h c (net_message.order u t) s.PlayerSet s.Allocator
      s.OrderQueue = some (s.Allocator, s.OrderQueue) := by
    simp only [ProcessMessageEvent, LinearAllocate_of_le _ _ hfit, Option.bind_eq_bind,
      Option.some_bind, hfind, ne_eq, not_true_eq_false, if_false, Release_after_allocate]
  have hreply : ProcessMessageEvent h c net_message.reply s.PlayerSet s.Allocator
      s.OrderQueue = some (s.Allocator, s.OrderQueue) := by
    simp only [ProcessMessageEvent]
  refine ⟨horder, ?_, hreply, ?_⟩
  · simp only [ProcessNetEvents, horder]
  · simp only [ProcessNetEvents, hreply]

/-- An order from client 7, unknown to the fresh sample game, changes nothing. -/
theorem ProcessMessageEvent_drops_undefined_sender_witness :
    FindSimIDByClientID sample_headers sample_initial.PlayerSet 7
        = sample_headers.SIMULATION_UNDEFINED_PLAYER_ID ∧
      ProcessNetEvents sample_headers sample_initial
        [net_event.message 7 (net_message.order [3, 5] { X := 100, Y := 200 })]
        = some sample_initial :=
  ⟨by decide,
   (ProcessMessageEvent_drops_undefined_sender sample_headers sample_initial 7 [3, 5]
      { X := 100, Y := 200 } (by decide) (by decide)).2.1⟩

/-! ## The termination clause -/

/-- C10: with `TerminationRequested` set and a mode other than
`game_mode_disconnecting`, `UpdateGame` only switches the state left by the
event drain to `game_mode_disconnecting` and appends one `shutdown` command:
no other command is written, the simulation and the tick deadline are those of
the entry state (no tick, no game start) whatever the time and the roster, and
the value behind `Running` is not modified. -/
theorem UpdateGame_termination_has_priority {σ : Type} (h : headers) (api : simulation_api σ)
    (Stale : memsize → simulation_order) (Time : uusec64) (Events : chunk_list net_event)
    (Commands : chunk_list net_command) (Running : Bool) (s s1 : game_state σ)
    (hmode : s.Mode ≠ game_mode_disconnecting)
    (hev : ProcessNetEvents h s Events = some s1)
    (hmax : h.NET_COMMAND_MAX_LENGTH ≤ GetLinearAllocatorFree s.Allocator)
    (hfit : h.SerializeShutdownNetCommandBytes ≤ GetLinearAllocatorFree s.Allocator) :
    UpdateGame h api Stale Time true Events Commands Running s =
        some { State := { s1 with Mode := game_mode_disconnecting },
               Commands := Commands ++ [net_command.shutdown],
               Running := Running,
               Delay := 1000 } ∧
      s1.Sim = s.Sim ∧ s1.NextTickTime = s.NextTickTime := by
  obtain ⟨hm, ht, hs, ha⟩ := ProcessNetEvents_frame h Events s s1 hev
  refine ⟨?_, hs, ht⟩
  rw [← ha] at hmax hfit
  have hguard : s1.Mode ≠ game_mode_disconnecting ∧ True := ⟨by rw [hm]; exact hmode, trivial⟩
  unfold UpdateGame
  simp only [hev, Option.bind_eq_bind, Option.some_bind]
  rw [if_pos hguard]
  simp only [Assert_of _ hmax, LinearAllocate_of_le _ _ hfit, Option.bind_eq_bind,
    Option.some_bind, Release_after_allocate, ChunkListWrite]

/-- Termination requested while client 7 connects to the fresh sample game. -/
theorem UpdateGame_termination_has_priority_witness :
    UpdateGame sample_headers trace_api sample_stale 50000 true
        [net_event.connect 7] [] true sample_initial =
      some { State := { sample_initial with
               PlayerSet := { Players := [{ SimID := 0, ClientID := 7 }], Count := 1 },
               Mode := game_mode_disconnecting },
             Commands := [net_command.shutdown],
             Running := true,
             Delay := 1000 } :=
  (UpdateGame_termination_has_priority sample_headers trace_api sample_stale 50000
    [net_event.connect 7] [] true sample_initial
    { sample_initial with PlayerSet := { Players := [{ SimID := 0, ClientID := 7 }], Count := 1 } }
    (by decide) (by rfl) (by decide) (by decide)).1

/-! ## The mode `game_mode_stopped` -/

/-- Once the events are drained, `UpdateGame` goes on as if called on the
drained state with an empty event queue. -/
theorem UpdateGame_after_drain {σ : Type} (h : headers) (api : simulation_api σ)
    (Stale : memsize → simulation_order) (Time : uusec64) (Term : Bool)
    (Events : chunk_list net_event) (Commands : chunk_list net_command) (Running : Bool)
    (s s1 : game_state σ) (hev : ProcessNetEvents h s Events = some s1) :
    UpdateGame h api Stale Time Term Events Commands Running s =
      UpdateGame h api Stale Time Term [] Commands Running s1 := by
  unfold UpdateGame
  simp only [hev, ProcessNetEvents, Option.bind_eq_bind, Option.some_bind]

/-- An aborted event drain aborts `UpdateGame`. -/
theorem UpdateGame_drain_abort {σ : Type} (h : headers) (api : simulation_api σ)
    (Stale : memsize → simulation_order) (Time : uusec64) (Term : Bool)
    (Events : chunk_list net_event) (Commands : chunk_list net_command) (Running : Bool)
    (s : game_state σ) (hev : ProcessNetEvents h s Events = none) :
    UpdateGame h api Stale Time Term Events Commands Running s = none := by
  unfold UpdateGame
  simp only [hev, Option.bind_eq_bind, Option.none_bind]

/-- C9, as stated, fails: a stopped game that is updated with
`TerminationRequested` set leaves `game_mode_stopped` for
`game_mode_disconnecting`. -/
theorem UpdateGame_stopped_not_terminal :
    ({ sample_initial with Mode := game_mode_stopped } : game_state (List sim_call)).Mode
        = game_mode_stopped ∧
      (UpdateGame sample_headers trace_api sample_stale 0 true [] [] false
          { sample_initial with Mode := game_mode_stopped }).map (fun r => r.State.Mode)
        = some game_mode_disconnecting := by
  constructor
  · rfl
  · rfl

/-- C9, amended: from `game_mode_stopped`, an update without
`TerminationRequested` ends in `game_mode_stopped` whatever the time and the
events, and it does return when the event drain does and the arena can hold a
shutdown command; an update with `TerminationRequested` ends in
`game_mode_disconnecting`. -/
theorem UpdateGame_stopped_stays_unless_termination {σ : Type} (h : headers)
    (api : simulation_api σ) (Stale : memsize → simulation_order) (Time : uusec64)
    (Events : chunk_list net_event) (Commands : chunk_list net_command) (Running : Bool)
    (s : game_state σ) (hmode : s.Mode = game_mode_stopped) :
    (∀ r, UpdateGame h api Stale Time false Events Commands Running s = some r →
        r.State.Mode = game_mode_stopped) ∧
      (∀ r, UpdateGame h api Stale Time true Events Commands Running s = some r →
        r.State.Mode = game_mode_disconnecting) ∧
      (∀ s1, ProcessNetEvents h s Events = some s1 →
        h.NET_COMMAND_MAX_LENGTH ≤ GetLinearAllocatorFree s.Allocator →
        h.SerializeShutdownNetCommandBytes ≤ GetLinearAllocatorFree s.Allocator →
        ∃ r, UpdateGame h api Stale Time false Events Commands Running s = some r) := by
  refine ⟨?_, ?_, ?_⟩
  · intro r hr
    cases hev : ProcessNetEvents h s Events with
    | none => rw [UpdateGame_drain_abort h api Stale Time false Events Commands Running s hev] at hr
              exact absurd hr (by simp)
    | some s1 =>
      obtain ⟨hm, -, -, -⟩ := ProcessNetEvents_frame h Events s s1 hev
      rw [hmode] at hm
      rw [UpdateGame_after_drain h api Stale Time false Events Commands Running s s1 hev] at hr
      unfold UpdateGame at hr
      simp only [ProcessNetEvents, Option.bind_eq_bind, Option.some_bind, hm] at hr
      by_cases hc : s1.PlayerSet.Count = 0
      · cases hA : Assert (GetLinearAllocatorFree s1.Allocator ≥ h.NET_COMMAND_MAX_LENGTH) with
        | none => simp [hc, hA] at hr
        | some u =>
          cases hL : LinearAllocate s1.Allocator h.SerializeShutdownNetCommandBytes with
          | none => simp [hc, hA, hL] at hr
          | some A1 =>
            simp [hc, hA, hL] at hr
            rw [← hr]
      · simp [hc] at hr
        rw [← hr]
        exact hm
  · intro r hr
    cases hev : ProcessNetEvents h s Events with
    | none => rw [UpdateGame_drain_abort h api Stale Time true Events Commands Running s hev] at hr
              exact absurd hr (by simp)
    | some s1 =>
      obtain ⟨hm, -, -, -⟩ := ProcessNetEvents_frame h Events s s1 hev
      rw [hmode] at hm
      rw [UpdateGame_after_drain h api Stale Time true Events Commands Running s s1 hev] at hr
      unfold UpdateGame at hr
      simp only [ProcessNetEvents, Option.bind_eq_bind, Option.some_bind, hm] at hr
      cases hA : Assert (GetLinearAllocatorFree s1.Allocator ≥ h.NET_COMMAND_MAX_LENGTH) with
      | none => simp [hA] at hr
      | some u =>
        cases hL : LinearAllocate s1.Allocator h.SerializeShutdownNetCommandBytes with
        | none => simp [hA, hL] at hr
        | some A1 =>
          simp [hA, hL] at hr
          rw [← hr]
  · intro s1 hev hmax hfit
    obtain ⟨hm, -, -, ha⟩ := ProcessNetEvents_frame h Events s s1 hev
    rw [hmode] at hm
    rw [← ha] at hmax hfit
    rw [UpdateGame_after_drain h api Stale Time false Events Commands Running s s1 hev]
    unfold UpdateGame
    simp only [ProcessNetEvents, Option.bind_eq_bind, Option.some_bind, hm]
    by_cases hc : s1.PlayerSet.Count = 0
    · simp [hc, Assert_of _ hmax, LinearAllocate_of_le _ _ hfit]
    · simp [hc]

/-- A stopped sample game stays stopped when client 9 connects. -/
theorem UpdateGame_stopped_stays_unless_termination_witness :
    ({ sample_initial with Mode := game_mode_stopped } : game_state (List sim_call)).Mode
        = game_mode_stopped ∧
      (UpdateGame sample_headers trace_api sample_stale 70000 false [net_event.connect 9] [] false
          { sample_initial with Mode := game_mode_stopped }).map (fun r => r.State.Mode)
        = some game_mode_stopped := by
  have hw := UpdateGame_stopped_stays_unless_termination sample_headers trace_api sample_stale
    70000 [net_event.connect 9] [] false { sample_initial with Mode := game_mode_stopped } rfl
  obtain ⟨r, hr⟩ := hw.2.2 _ rfl (by decide) (by decide)
  refine ⟨rfl, ?_⟩
  rw [hr, Option.map_some', hw.1 r hr]

/-! ## Creating the players -/

theorem getD_set_eq {α : Type} (P : List α) (I J : Nat) (x d : α) :
    (P.set I x).getD J d = if I = J ∧ I < P.length then x else P.getD J d := by
  simp only [List.getD_eq_getElem?_getD, List.getElem?_set]
  by_cases hIJ : I = J
  · subst hIJ
    by_cases hI : I < P.length
    · simp [hI]
    · have hnone : P[I]? = none := List.getElem?_eq_none (Nat.not_lt.mp hI)
      simp [hI, hnone]
  · simp [hIJ]

theorem CreatePlayers_sim {σ : Type} (api : simulation_api σ) (L : List memsize) :
    ∀ (P : List player) (S : σ),
      (StartGame.CreatePlayers api L P S).2 = CreatedSim api L.length S := by
  induction L with
  | nil => intro P S; rfl
  | cons I rest ih =>
    intro P S
    simp only [StartGame.CreatePlayers, List.length_cons, CreatedSim]
    exact ih _ _

theorem CreatePlayers_length {σ : Type} (api : simulation_api σ) (L : List memsize) :
    ∀ (P : List player) (S : σ),
      (StartGame.CreatePlayers api L P S).1.length = P.length := by
  induction L with
  | nil => intro P S; rfl
  | cons I rest ih =>
    intro P S
    simp only [StartGame.CreatePlayers]
    rw [ih, List.length_set]

theorem CreatePlayers_slot {σ : Type} (api : simulation_api σ) (n : Nat) :
    ∀ (k : Nat) (P : List player) (S : σ) (J : Nat),
      (StartGame.CreatePlayers api (List.range' k n) P S).1.getD J default =
        if k ≤ J ∧ J < k + n ∧ J < P.length then
          { P.getD J default with SimID := CreatedID api (J - k) S }
        else P.getD J default := by
  induction n with
  | zero =>
    intro k P S J
    have hno : ¬ (k ≤ J ∧ J < k + 0 ∧ J < P.length) := by omega
    simp only [List.range'_zero, StartGame.CreatePlayers, if_neg hno]
  | succ n ih =>
    intro k P S J
    simp only [List.range'_succ, StartGame.CreatePlayers]
    rw [ih, List.length_set]
    by_cases hJk : J = k
    · subst hJk
      have hno : ¬ (J + 1 ≤ J ∧ J < J + 1 + n ∧ J < P.length) := by omega
      rw [if_neg hno, getD_set_eq]
      by_cases hlen : J < P.length
      · have hyes : J ≤ J ∧ J < J + (n + 1) ∧ J < P.length := ⟨le_refl _, by omega, hlen⟩
        rw [if_pos ⟨rfl, hlen⟩, if_pos hyes, Nat.sub_self]
        rfl
      · have hno2 : ¬ (J ≤ J ∧ J < J + (n + 1) ∧ J < P.length) := by omega
        have hno3 : ¬ (J = J ∧ J < P.length) := by omega
        rw [if_neg hno3, if_neg hno2]
    · have hset : (P.set k { P.getD k default with
          SimID := (api.SimulationCreatePlayer S).1 }).getD J default = P.getD J default := by
        rw [getD_set_eq, if_neg (by omega)]
      rw [hset]
      by_cases hin : k + 1 ≤ J ∧ J < k + 1 + n ∧ J < P.length
      · have hyes : k ≤ J ∧ J < k + (n + 1) ∧ J < P.length := by omega
        rw [if_pos hin, if_pos hyes]
        have hsub : J - k = (J - (k + 1)) + 1 := by omega
        rw [hsub]
        rfl
      · have hno2 : ¬ (k ≤ J ∧ J < k + (n + 1) ∧ J < P.length) := by omega
        rw [if_neg hin, if_neg hno2]

/-! ## The tick frame -/

theorem fits_left (a b f : Nat) (hab : a + b ≤ f) : a ≤ f := by omega

theorem fits_right (A : linear_allocator) (a b : Nat)
    (hab : a + b ≤ GetLinearAllocatorFree A) :
    b ≤ GetLinearAllocatorFree { A with Used := A.Used + a } := by
  simp only [GetLinearAllocatorFree, memsize] at *
  omega

theorem Drain_of_fits (h : headers) (Queue : chunk_list simulation_order) :
    ∀ (I : memsize) (Orders : List simulation_order) (A : linear_allocator),
      DrainedBytes h I Queue ≤ GetLinearAllocatorFree A →
      ∃ Rest, UpdateGame.Drain h I Queue Orders A =
        some (DrainedOrders I Queue Orders, Rest,
          { A with Used := A.Used + DrainedBytes h I Queue }) := by
  induction Queue with
  | nil =>
    intro I Orders A _
    exact ⟨[], by cases A; simp [UpdateGame.Drain, DrainedOrders, DrainedBytes]⟩
  | cons o rest ih =>
    intro I Orders A hfit
    by_cases hI : I < chunk_list.Count (o :: rest)
    · simp only [DrainedBytes, if_pos hI] at hfit
      have h1 := fits_left _ _ _ hfit
      have h2 := fits_right A _ _ hfit
      obtain ⟨Rest, hR⟩ := ih (I + 1) (Orders.set I o) _ h2
      refine ⟨Rest, ?_⟩
      simp only [UpdateGame.Drain, DrainedOrders, DrainedBytes, if_pos hI,
        LinearAllocate_of_le _ _ h1, Option.bind_eq_bind, Option.some_bind, hR, Nat.add_assoc]
    · refine ⟨o :: rest, ?_⟩
      cases A
      simp [UpdateGame.Drain, DrainedOrders, DrainedBytes, if_neg hI]

theorem DrainedOrders_length (Queue : chunk_list simulation_order) :
    ∀ (I : memsize) (Orders : List simulation_order),
      (DrainedOrders I Queue Orders).length = Orders.length := by
  induction Queue with
  | nil => intro I Orders; simp [DrainedOrders]
  | cons o rest ih =>
    intro I Orders
    simp only [DrainedOrders]
    split
    · rw [ih, List.length_set]
    · rfl

theorem TickOrderList_length (Stale : memsize → simulation_order)
    (Queue : chunk_list simulation_order) :
    (TickOrderList Stale Queue).length = chunk_list.Count Queue := by
  unfold TickOrderList
  split
  · rw [DrainedOrders_length, List.length_map, List.length_range]
  · rename_i hq
    simp only [ne_eq, not_not] at hq
    rw [hq]
    rfl

theorem Copy_of_fits (Orders : List simulation_order) :
    ∀ (A : linear_allocator), CopyBytes Orders ≤ GetLinearAllocatorFree A →
      BroadcastOrders.Copy Orders A =
        some (Orders.map NetOrderOf, { A with Used := A.Used + CopyBytes Orders }) := by
  induction Orders with
  | nil =>
    intro A _
    cases A
    simp [BroadcastOrders.Copy, CopyBytes]
  | cons o rest ih =>
    intro A hfit
    have hsum : CopyBytes (o :: rest) = 2 * o.UnitCount + CopyBytes rest := by
      simp [CopyBytes]
    rw [hsum] at hfit
    have h1 := fits_left _ _ _ hfit
    have h2 := fits_right A _ _ hfit
    simp only [BroadcastOrders.Copy, LinearAllocate_of_le _ _ h1, Option.bind_eq_bind,
      Option.some_bind, ih _ h2, hsum, List.map_cons, NetOrderOf, Nat.add_assoc]

theorem Broadcast_of_fits (h : headers) (Set : player_set) (Message : net_message)
    (Commands : chunk_list net_command) (A : linear_allocator)
    (hfit : max h.NET_COMMAND_MAX_LENGTH
      (h.SerializeBroadcastNetCommandBytes (BroadcastIDs Set) Message) ≤
        GetLinearAllocatorFree A) :
    Broadcast h Set Message Commands A =
      some (A, Commands ++ [net_command.broadcast (BroadcastIDs Set) Message]) := by
  have h1 : GetLinearAllocatorFree A ≥ h.NET_COMMAND_MAX_LENGTH :=
    le_trans (le_max_left _ _) hfit
  have h2 : h.SerializeBroadcastNetCommandBytes (BroadcastIDs Set) Message ≤
      GetLinearAllocatorFree A :=
    le_trans (le_max_right _ _) hfit
  simp only [Broadcast, Assert_of _ h1, LinearAllocate_of_le _ _ h2, Option.bind_eq_bind,
    Option.some_bind, Release_after_allocate, ChunkListWrite]

theorem BroadcastOrders_of_fits (h : headers) (Set : player_set)
    (Orders : List simulation_order) (Commands : chunk_list net_command) (A : linear_allocator)
    (hfit : BroadcastOrdersBytes h Set Orders ≤ GetLinearAllocatorFree A) :
    BroadcastOrders h Set Orders Commands A =
      some (A, Commands ++
        [net_command.broadcast (BroadcastIDs Set)
          (net_message.order_list (Orders.map NetOrderOf))]) := by
  unfold BroadcastOrdersBytes at hfit
  by_cases hlen : Orders.length ≠ 0
  · rw [if_pos hlen, Nat.add_assoc, Nat.add_assoc] at hfit
    have h1 := fits_left _ _ _ hfit
    have hfit2 := fits_right A _ _ hfit
    have h2 := fits_left _ _ _ hfit2
    have hfit3 := fits_right _ _ _ hfit2
    have h3 := fits_left _ _ _ hfit3
    have h4 := fits_right _ _ _ hfit3
    simp only [BroadcastOrders, if_pos hlen, LinearAllocate_of_le _ _ h1, Option.bind_eq_bind,
      Option.some_bind, Copy_of_fits _ _ h2, LinearAllocate_of_le _ _ h3,
      Broadcast_of_fits h Set _ Commands _ h4]
    cases A
    rfl
  · rw [if_neg hlen, Nat.zero_add] at hfit
    have hnil : Orders = [] := by
      cases Orders with
      | nil => rfl
      | cons o rest => exact absurd (by simp) hlen
    subst hnil
    simp only [List.map_nil] at hfit
    have h3 := fits_left _ _ _ hfit
    have h4 := fits_right A _ _ hfit
    simp only [BroadcastOrders, List.length_nil, ne_eq, not_true_eq_false, if_false,
      Option.bind_eq_bind, Option.some_bind, LinearAllocate_of_le _ _ h3,
      Broadcast_of_fits h Set _ Commands _ h4, List.map_nil]
    cases A
    rfl

/-- The tick clause of `UpdateGame`, when the arena can hold the frame. -/
theorem UpdateGame_tick {σ : Type} (h : headers) (api : simulation_api σ)
    (Stale : memsize → simulation_order) (Time : uusec64) (Events : chunk_list net_event)
    (Commands : chunk_list net_command) (Running : Bool) (s s1 : game_state σ)
    (hmode : s.Mode = game_mode_active)
    (hev : ProcessNetEvents h s Events = some s1)
    (hcount : s1.PlayerSet.Count ≠ 0)
    (htime : Time ≥ s.NextTickTime)
    (hfit : TickFrameBytes h s1.PlayerSet Stale s1.OrderQueue ≤
      GetLinearAllocatorFree s.Allocator) :
    UpdateGame h api Stale Time false Events Commands Running s =
      some { State := { s1 with
               Sim := api.TickSimulation s.Sim (TickOrderList Stale s1.OrderQueue),
               OrderQueue := [],
               NextTickTime := (s.NextTickTime + h.SimulationTickDuration * 1000) % UUSEC64_RANGE },
             Commands := Commands ++
               [net_command.broadcast (BroadcastIDs s1.PlayerSet)
                 (net_message.order_list ((TickOrderList Stale s1.OrderQueue).map NetOrderOf))],
             Running := Running,
             Delay := 1000 } := by
  obtain ⟨hm, ht, hs, ha⟩ := ProcessNetEvents_frame h Events s s1 hev
  rw [hmode] at hm
  rw [← ha] at hfit
  rw [← ht] at htime
  rw [← hs, ← ht]
  rw [UpdateGame_after_drain h api Stale Time false Events Commands Running s s1 hev]
  unfold TickFrameBytes at hfit
  unfold UpdateGame
  simp only [ProcessNetEvents, Option.bind_eq_bind, Option.some_bind, hm, hcount, htime,
    ne_eq, reduceCtorEq, not_false_eq_true, not_true_eq_false, and_false, false_and,
    and_true, true_and, if_false, if_true, Bool.false_eq_true, ge_iff_le]
  by_cases hq : chunk_list.Count s1.OrderQueue ≠ 0
  · rw [if_pos hq, Nat.add_assoc] at hfit
    have h1 := fits_left _ _ _ hfit
    have hfit2 := fits_right _ _ _ hfit
    have h2 := fits_left _ _ _ hfit2
    have h3 := fits_right _ _ _ hfit2
    obtain ⟨Rest, hR⟩ := Drain_of_fits h s1.OrderQueue 0
      ((List.range (chunk_list.Count s1.OrderQueue)).map Stale) _ h2
    have hL : TickOrderList Stale s1.OrderQueue =
        DrainedOrders 0 s1.OrderQueue ((List.range (chunk_list.Count s1.OrderQueue)).map Stale) := by
      unfold TickOrderList
      rw [if_pos hq]
    rw [hL] at h3 ⊢
    simp only [if_pos hq, LinearAllocate_of_le _ _ h1, Option.some_bind, hR,
      BroadcastOrders_of_fits h s1.PlayerSet _ Commands _ h3, ResetChunkList,
      ReleaseLinearAllocatorCheckpoint, CreateLinearAllocatorCheckpoint]
  · rw [if_neg hq, Nat.zero_add] at hfit
    have hL : TickOrderList Stale s1.OrderQueue = [] := by
      unfold TickOrderList
      rw [if_neg hq]
    rw [hL] at hfit ⊢
    simp only [if_neg hq, Option.some_bind,
      BroadcastOrders_of_fits h s1.PlayerSet _ Commands _ hfit, ResetChunkList,
      ReleaseLinearAllocatorCheckpoint, CreateLinearAllocatorCheckpoint]

/-- C2: in `game_mode_active`, with a non-empty roster after the event drain,
no termination request and the tick deadline reached, `UpdateGame` appends
exactly one command, a broadcast to the client ids of the roster slots
`0 .. Count-1` carrying the `order_list` message of the frame's order list, and
passes that same order list to one `TickSimulation` call; with an empty staging
queue the list is empty. -/
theorem UpdateGame_tick_heartbeat {σ : Type} (h : headers) (api : simulation_api σ)
    (Stale : memsize → simulation_order) (Time : uusec64) (Events : chunk_list net_event)
    (Commands : chunk_list net_command) (Running : Bool) (s s1 : game_state σ)
    (hmode : s.Mode = game_mode_active)
    (hev : ProcessNetEvents h s Events = some s1)
    (hcount : s1.PlayerSet.Count ≠ 0)
    (htime : Time ≥ s.NextTickTime)
    (hfit : TickFrameBytes h s1.PlayerSet Stale s1.OrderQueue ≤
      GetLinearAllocatorFree s.Allocator) :
    UpdateGame h api Stale Time false Events Commands Running s =
        some { State := { s1 with
                 Sim := api.TickSimulation s.Sim (TickOrderList Stale s1.OrderQueue),
                 OrderQueue := [],
                 NextTickTime :=
                   (s.NextTickTime + h.SimulationTickDuration * 1000) % UUSEC64_RANGE },
               Commands := Commands ++
                 [net_command.broadcast
                   ((List.range s1.PlayerSet.Count).map (fun I => (s1.PlayerSet.At I).ClientID))
                   (net_message.order_list
                     ((TickOrderList Stale s1.OrderQueue).map NetOrderOf))],
               Running := Running,
               Delay := 1000 } ∧
      (s1.OrderQueue = [] → TickOrderList Stale s1.OrderQueue = []) :=
  ⟨UpdateGame_tick h api Stale Time Events Commands Running s s1 hmode hev hcount htime hfit,
   fun hq => by rw [hq]; rfl⟩

/-- First tick of the sample game, nothing staged: an empty order list is
broadcast to client 7 and passed to the simulation. -/
theorem UpdateGame_tick_heartbeat_witness :
    UpdateGame sample_headers trace_api sample_stale 20000 false [] [] true sample_active =
      some { State := { sample_active with
               Sim := [sim_call.init, sim_call.create_player, sim_call.tick []],
               NextTickTime := 40000 },
             Commands := [net_command.broadcast [7] (net_message.order_list [])],
             Running := true,
             Delay := 1000 } :=
  (UpdateGame_tick_heartbeat sample_headers trace_api sample_stale 20000 [] [] true
    sample_active sample_active rfl rfl (by decide) (by decide) (by decide)).1

/-- C1 fails on the code: two orders are staged between ticks, and the tick
frame hands the simulation, and broadcasts, a two-slot list whose second slot
is not the second order but what the fresh array held; the second order is
discarded by the queue reset. -/
theorem UpdateGame_second_staged_order_lost :
    UpdateGame sample_headers trace_api sample_stale 5000 false
        [net_event.message 7 (net_message.order [3, 5] { X := 100, Y := 200 }),
         net_event.message 7 (net_message.order [4] { X := 1, Y := 2 })]
        [] true sample_active =
      some { State := { sample_active with
               OrderQueue :=
                 [{ PlayerID := 0, UnitIDs := [3, 5], Target := { X := 100, Y := 200 } },
                  { PlayerID := 0, UnitIDs := [4], Target := { X := 1, Y := 2 } }] },
             Commands := [], Running := true, Delay := 1000 } ∧
    UpdateGame sample_headers trace_api sample_stale 20000 false [] [] true
        { sample_active with
          OrderQueue :=
            [{ PlayerID := 0, UnitIDs := [3, 5], Target := { X := 100, Y := 200 } },
             { PlayerID := 0, UnitIDs := [4], Target := { X := 1, Y := 2 } }] } =
      some { State := { sample_active with
               Sim := [sim_call.init, sim_call.create_player,
                 sim_call.tick
                   [{ PlayerID := 0, UnitIDs := [3, 5], Target := { X := 100, Y := 200 } },
                    sample_stale 1]],
               NextTickTime := 40000 },
             Commands := [net_command.broadcast [7] (net_message.order_list
               [{ PlayerID := 0, UnitIDs := [3, 5], Target := { X := 100, Y := 200 } },
                NetOrderOf (sample_stale 1)])],
             Running := true, Delay := 1000 } := by
  constructor
  · rfl
  · rfl

/-- C4: an update that fires a tick (active mode, no termination request,
non-empty roster, deadline reached) moves `NextTickTime` forward by exactly
`SimulationTickDuration * 1000`, modulo `2 ^ 64` and whatever the lateness of
`Time`, and applies `TickSimulation` once; an update that starts the game makes
only `InitSimulation` and `SimulationCreatePlayer` calls; every other update
leaves `NextTickTime` and the simulation unchanged. -/
theorem UpdateGame_cadence {σ : Type} (h : headers) (api : simulation_api σ)
    (Stale : memsize → simulation_order) (Time : uusec64) (Term : Bool)
    (Events : chunk_list net_event) (Commands : chunk_list net_command) (Running : Bool)
    (s s1 : game_state σ) (r : update_result σ)
    (hev : ProcessNetEvents h s Events = some s1)
    (hr : UpdateGame h api Stale Time Term Events Commands Running s = some r) :
    (s1.Mode = game_mode_active ∧ Term = false ∧ s1.PlayerSet.Count ≠ 0 ∧
        Time ≥ s1.NextTickTime →
      r.State.NextTickTime =
          (s.NextTickTime + h.SimulationTickDuration * 1000) % UUSEC64_RANGE ∧
        (s.NextTickTime + h.SimulationTickDuration * 1000 < UUSEC64_RANGE →
          r.State.NextTickTime = s.NextTickTime + h.SimulationTickDuration * 1000) ∧
        ∃ Orders, r.State.Sim = api.TickSimulation s.Sim Orders) ∧
    (s1.Mode = game_mode_waiting_for_clients ∧ Term = false ∧
        s1.PlayerSet.Count = PLAYERS_MAX →
      r.State.Sim = CreatedSim api s1.PlayerSet.Count (api.InitSimulation s.Sim)) ∧
    (¬ (s1.Mode = game_mode_active ∧ Term = false ∧ s1.PlayerSet.Count ≠ 0 ∧
          Time ≥ s1.NextTickTime) →
      ¬ (s1.Mode = game_mode_waiting_for_clients ∧ Term = false ∧
          s1.PlayerSet.Count = PLAYERS_MAX) →
      r.State.NextTickTime = s.NextTickTime ∧ r.State.Sim = s.Sim) := by
  obtain ⟨hm, ht, hs, ha⟩ := ProcessNetEvents_frame h Events s s1 hev
  rw [UpdateGame_after_drain h api Stale Time Term Events Commands Running s s1 hev] at hr
  unfold UpdateGame at hr
  simp only [ProcessNetEvents, Option.bind_eq_bind, Option.some_bind] at hr
  rw [← ht, ← hs]
  refine ⟨?_, ?_, ?_⟩
  · rintro ⟨hma, hte, hco, hti⟩
    subst hte
    simp only [hma, hco, hti, ne_eq, reduceCtorEq, not_false_eq_true, not_true_eq_false,
      and_false, false_and, and_true, true_and, if_false, if_true, Bool.false_eq_true,
      ge_iff_le] at hr
    split at hr
    · simp only [Option.bind_eq_some, Option.some.injEq] at hr
      obtain ⟨A1, -, y, -, Sent, -, hr⟩ := hr
      subst hr
      exact ⟨rfl, fun hlt => Nat.mod_eq_of_lt hlt, y.1, rfl⟩
    · simp only [Option.bind_eq_some, Option.some.injEq] at hr
      obtain ⟨Sent, -, hr⟩ := hr
      subst hr
      exact ⟨rfl, fun hlt => Nat.mod_eq_of_lt hlt, [], rfl⟩
  · rintro ⟨hmw, hte, hco⟩
    subst hte
    simp only [hmw, hco, ne_eq, reduceCtorEq, not_false_eq_true, not_true_eq_false,
      and_false, false_and, and_true, true_and, if_false, if_true, Bool.false_eq_true] at hr
    simp only [StartGame, Option.bind_eq_bind, Option.bind_eq_some, Option.some.injEq] at hr
    obtain ⟨Started, ⟨Cmds, -, hst⟩, hr⟩ := hr
    subst hr
    subst hst
    simp only [CreatePlayers_sim, List.length_range]
  · intro hnt hns
    by_cases hg1 : s1.Mode ≠ game_mode_disconnecting ∧ Term = true
    · rw [if_pos hg1] at hr
      simp only [Option.bind_eq_some, Option.some.injEq] at hr
      obtain ⟨u, -, A1, -, hr⟩ := hr
      subst hr
      exact ⟨rfl, rfl⟩
    · rw [if_neg hg1] at hr
      by_cases hg2 : s1.Mode ≠ game_mode_waiting_for_clients ∧ s1.PlayerSet.Count = 0
      · rw [if_pos hg2] at hr
        split at hr
        · simp only [Option.bind_eq_some, Option.some.injEq] at hr
          obtain ⟨u, -, A1, -, hr⟩ := hr
          subst hr
          exact ⟨rfl, rfl⟩
        · simp only [Option.some.injEq] at hr
          subst hr
          exact ⟨rfl, rfl⟩
      · rw [if_neg hg2] at hr
        have hterm : s1.Mode ≠ game_mode_disconnecting → Term = false := by
          intro hd
          cases Term with
          | false => rfl
          | true => exact absurd ⟨hd, rfl⟩ hg1
        by_cases hg3 : s1.Mode = game_mode_waiting_for_clients ∧
            s1.PlayerSet.Count = PLAYERS_MAX
        · exact absurd ⟨hg3.1, hterm (by rw [hg3.1]; decide), hg3.2⟩ hns
        · rw [if_neg hg3] at hr
          by_cases hg4 : s1.Mode = game_mode_active
          · rw [if_pos hg4] at hr
            by_cases hti : Time ≥ s1.NextTickTime
            · have hco : s1.PlayerSet.Count ≠ 0 := by
                intro hc
                exact hg2 ⟨by rw [hg4]; decide, hc⟩
              exact absurd ⟨hg4, hterm (by rw [hg4]; decide), hco, hti⟩ hnt
            · rw [if_neg hti] at hr
              simp only [Option.some.injEq] at hr
              subst hr
              exact ⟨rfl, rfl⟩
          · rw [if_neg hg4] at hr
            simp only [ite_self, Option.some.injEq] at hr
            subst hr
            exact ⟨rfl, rfl⟩

/-- The sample game updated 980 ms after its deadline of 20000: one tick, and
the deadline moves to 40000. -/
theorem UpdateGame_cadence_witness :
    UpdateGame sample_headers trace_api sample_stale 1000000 false [] [] true sample_active =
        some { State := { sample_active with
                 Sim := [sim_call.init, sim_call.create_player, sim_call.tick []],
                 NextTickTime := 40000 },
               Commands := [net_command.broadcast [7] (net_message.order_list [])],
               Running := true,
               Delay := 1000 } ∧
      ({ sample_active with
          Sim := [sim_call.init, sim_call.create_player, sim_call.tick []],
          NextTickTime := 40000 } : game_state (List sim_call)).NextTickTime = 20000 + 20 * 1000 :=
  ⟨rfl,
   ((UpdateGame_cadence sample_headers trace_api sample_stale 1000000 false [] [] true
      sample_active sample_active _ rfl rfl).1 ⟨rfl, rfl, by decide, by decide⟩).2.1
        (by decide)⟩

/-! ## Starting the game -/

theorem ProcessNetEvents_players_length {σ : Type} (h : headers)
    (Events : chunk_list net_event) :
    ∀ (s s1 : game_state σ), ProcessNetEvents h s Events = some s1 →
      s1.PlayerSet.Players.length = s.PlayerSet.Players.length := by
  induction Events with
  | nil =>
    intro s s1 hs
    simp [ProcessNetEvents] at hs
    subst hs
    rfl
  | cons e rest ih =>
    intro s s1 hs
    cases e with
    | connect c =>
      simp only [ProcessNetEvents] at hs
      split at hs
      · have hi := ih _ _ hs
        simpa [AddPlayer] using hi
      · exact ih _ _ hs
    | disconnect c =>
      simp only [ProcessNetEvents] at hs
      split at hs
      · have hi := ih _ _ hs
        simpa [RemovePlayer] using hi
      · exact ih _ _ hs
    | message c m =>
      simp only [ProcessNetEvents] at hs
      split at hs
      · have hi := ih _ _ hs
        simpa using hi
      · exact absurd hs (by simp)
    | unknown => exact absurd hs (by simp [ProcessNetEvents])

theorem SendStarts_of_fits (h : headers) (Set : player_set) (A : linear_allocator)
    (hmax : h.NET_MESSAGE_MAX_LENGTH + h.NET_COMMAND_MAX_LENGTH ≤ GetLinearAllocatorFree A)
    (L : List memsize) :
    ∀ (NetCmds : chunk_list net_command),
      (∀ I ∈ L, h.SerializeStartNetMessageBytes Set.Count I +
          h.SerializeSendNetCommandBytes (Set.At I).ClientID (net_message.start Set.Count I) ≤
            GetLinearAllocatorFree A) →
      StartGame.SendStarts h Set A L NetCmds =
        some (NetCmds ++ L.map (fun I =>
          net_command.send (Set.At I).ClientID (net_message.start Set.Count I))) := by
  induction L with
  | nil =>
    intro NetCmds _
    simp [StartGame.SendStarts]
  | cons I rest ih =>
    intro NetCmds hfit
    have hI := hfit I (List.mem_cons_self _ _)
    have h1 := fits_left _ _ _ hI
    have h2 := fits_right A _ _ hI
    have hrest := ih (ChunkListWrite NetCmds
      (net_command.send (Set.At I).ClientID (net_message.start Set.Count I)))
      (fun J hJ => hfit J (List.mem_cons_of_mem _ hJ))
    simp only [ChunkListWrite] at hrest
    simp only [StartGame.SendStarts, Assert_of _ hmax, LinearAllocate_of_le _ _ h1,
      Option.bind_eq_bind, Option.some_bind, LinearAllocate_of_le _ _ h2, hrest,
      ChunkListWrite, List.map_cons, List.append_assoc, List.singleton_append]

theorem CreatePlayers_range_slot {σ : Type} (api : simulation_api σ) (n : Nat)
    (P : List player) (S : σ) (J : Nat) :
    (StartGame.CreatePlayers api (List.range n) P S).1.getD J default =
      if J < n ∧ J < P.length then { P.getD J default with SimID := CreatedID api J S }
      else P.getD J default := by
  rw [List.range_eq_range', CreatePlayers_slot]
  by_cases hJ : J < n ∧ J < P.length
  · rw [if_pos hJ, if_pos ⟨Nat.zero_le _, by omega, hJ.2⟩, Nat.sub_zero]
  · rw [if_neg hJ, if_neg (by omega)]

theorem CreatePlayers_range_ClientID {σ : Type} (api : simulation_api σ) (n : Nat)
    (P : List player) (S : σ) (J : Nat) :
    ((StartGame.CreatePlayers api (List.range n) P S).1.getD J default).ClientID =
      (P.getD J default).ClientID := by
  rw [CreatePlayers_range_slot]
  split <;> rfl

/-- C3: in `game_mode_waiting_for_clients`, with `PLAYERS_MAX` players in the
roster after the event drain and no termination request, `UpdateGame` at time
`Time` initialises the simulation, gives slot `I` the id returned by call
number `I` of `SimulationCreatePlayer` (client ids stay), appends one
`send` of `start{Count, I}` per slot `I` in index order and nothing else, sets
the mode to `game_mode_active` and the tick deadline to
`Time + SimulationTickDuration * 1000` (in 64-bit arithmetic). -/
theorem UpdateGame_starts_game {σ : Type} (h : headers) (api : simulation_api σ)
    (Stale : memsize → simulation_order) (Time : uusec64) (Events : chunk_list net_event)
    (Commands : chunk_list net_command) (Running : Bool) (s s1 : game_state σ)
    (hmode : s.Mode = game_mode_waiting_for_clients)
    (hslots : s.PlayerSet.Players.length = PLAYERS_MAX)
    (hev : ProcessNetEvents h s Events = some s1)
    (hcount : s1.PlayerSet.Count = PLAYERS_MAX)
    (hmax : h.NET_MESSAGE_MAX_LENGTH + h.NET_COMMAND_MAX_LENGTH ≤
      GetLinearAllocatorFree s.Allocator)
    (hfit : ∀ I, I < s1.PlayerSet.Count →
      h.SerializeStartNetMessageBytes s1.PlayerSet.Count I +
        h.SerializeSendNetCommandBytes (s1.PlayerSet.At I).ClientID
          (net_message.start s1.PlayerSet.Count I) ≤ GetLinearAllocatorFree s.Allocator) :
    UpdateGame h api Stale Time false Events Commands Running s =
        some { State := { s1 with
                 PlayerSet :=
                   { Players := (StartGame.CreatePlayers api (List.range s1.PlayerSet.Count)
                       s1.PlayerSet.Players (api.InitSimulation s.Sim)).1,
                     Count := s1.PlayerSet.Count },
                 Sim := CreatedSim api s1.PlayerSet.Count (api.InitSimulation s.Sim),
                 NextTickTime := (Time + h.SimulationTickDuration * 1000) % UUSEC64_RANGE,
                 Mode := game_mode_active },
               Commands := Commands ++ (List.range s1.PlayerSet.Count).map (fun I =>
                 net_command.send (s1.PlayerSet.At I).ClientID
                   (net_message.start s1.PlayerSet.Count I)),
               Running := Running,
               Delay := 1000 } ∧
      (∀ I, I < s1.PlayerSet.Count →
        (StartGame.CreatePlayers api (List.range s1.PlayerSet.Count)
            s1.PlayerSet.Players (api.InitSimulation s.Sim)).1.getD I default =
          { SimID := CreatedID api I (api.InitSimulation s.Sim),
            ClientID := (s1.PlayerSet.At I).ClientID }) ∧
      (Time + h.SimulationTickDuration * 1000 < UUSEC64_RANGE →
        (Time + h.SimulationTickDuration * 1000) % UUSEC64_RANGE =
          Time + h.SimulationTickDuration * 1000) := by
  obtain ⟨hm, ht, hs, ha⟩ := ProcessNetEvents_frame h Events s s1 hev
  have hlen := ProcessNetEvents_players_length h Events s s1 hev
  rw [hmode] at hm
  rw [← ha] at hmax hfit
  rw [← hs]
  refine ⟨?_, ?_, fun hlt => Nat.mod_eq_of_lt hlt⟩
  · rw [UpdateGame_after_drain h api Stale Time false Events Commands Running s s1 hev]
    have hfit2 : ∀ I ∈ List.range s1.PlayerSet.Count,
        h.SerializeStartNetMessageBytes s1.PlayerSet.Count I +
          h.SerializeSendNetCommandBytes
            (({ Players := (StartGame.CreatePlayers api (List.range s1.PlayerSet.Count)
                  s1.PlayerSet.Players (api.InitSimulation s1.Sim)).1,
                Count := s1.PlayerSet.Count } : player_set).At I).ClientID
            (net_message.start s1.PlayerSet.Count I) ≤ GetLinearAllocatorFree s1.Allocator := by
      intro I hI
      simp only [player_set.At, CreatePlayers_range_ClientID]
      exact hfit I (List.mem_range.mp hI)
    have hsend := SendStarts_of_fits h
      { Players := (StartGame.CreatePlayers api (List.range s1.PlayerSet.Count)
          s1.PlayerSet.Players (api.InitSimulation s1.Sim)).1,
        Count := s1.PlayerSet.Count } s1.Allocator hmax (List.range s1.PlayerSet.Count)
      Commands hfit2
    simp only [player_set.At, CreatePlayers_range_ClientID] at hsend
    unfold UpdateGame
    simp only [ProcessNetEvents, Option.bind_eq_bind, Option.some_bind, hm, hcount,
      ne_eq, reduceCtorEq, not_false_eq_true, not_true_eq_false, and_false, false_and,
      and_true, true_and, if_false, if_true, Bool.false_eq_true, StartGame]
    rw [hcount] at hsend
    simp only [hsend, Option.some_bind, CreatePlayers_sim, List.length_range, player_set.At]
  · intro I hI
    rw [CreatePlayers_range_slot, if_pos ⟨hI, by rw [hlen, hslots, ← hcount]; exact hI⟩]
    rfl

/-- Cold start of the sample game: client 7 connects at time 0. -/
theorem UpdateGame_starts_game_witness :
    UpdateGame sample_headers trace_api sample_stale 0 false [net_event.connect 7] [] true
        sample_initial =
      some { State := { sample_initial with
               PlayerSet := { Players := [{ SimID := 0, ClientID := 7 }], Count := 1 },
               Sim := [sim_call.init, sim_call.create_player],
               NextTickTime := 20000,
               Mode := game_mode_active },
             Commands := [net_command.send 7 (net_message.start 1 0)],
             Running := true,
             Delay := 1000 } :=
  (UpdateGame_starts_game sample_headers trace_api sample_stale 0 [net_event.connect 7] []
    true sample_initial
    { sample_initial with PlayerSet := { Players := [{ SimID := 0, ClientID := 7 }], Count := 1 } }
    rfl rfl rfl rfl (by decide) (by decide)).1

/-! ## What an update can do -/

theorem LinearAllocate_length (A B : linear_allocator) (n : memsize)
    (hB : LinearAllocate A n = some B) : B.Length = A.Length := by
  rw [LinearAllocate_eq_some_iff] at hB
  rw [hB.2]

theorem Drain_inv (h : headers) (Queue : chunk_list simulation_order) :
    ∀ (I : memsize) (Orders : List simulation_order) (A : linear_allocator)
      (y : List simulation_order × chunk_list simulation_order × linear_allocator),
      UpdateGame.Drain h I Queue Orders A = some y →
        y.1 = DrainedOrders I Queue Orders ∧ y.2.2.Length = A.Length := by
  induction Queue with
  | nil =>
    intro I Orders A y hy
    simp only [UpdateGame.Drain, Option.some.injEq] at hy
    subst hy
    exact ⟨rfl, rfl⟩
  | cons o rest ih =>
    intro I Orders A y hy
    by_cases hI : I < chunk_list.Count (o :: rest)
    · simp only [UpdateGame.Drain, if_pos hI, Option.bind_eq_bind, Option.bind_eq_some] at hy
      obtain ⟨A1, hA1, hy⟩ := hy
      obtain ⟨h1, h2⟩ := ih _ _ _ _ hy
      refine ⟨?_, ?_⟩
      · rw [h1]
        simp only [DrainedOrders, if_pos hI]
      · rw [h2, LinearAllocate_length _ _ _ hA1]
    · simp only [UpdateGame.Drain, if_neg hI, Option.some.injEq] at hy
      subst hy
      refine ⟨?_, rfl⟩
      simp only [DrainedOrders, if_neg hI]

theorem Copy_inv (Orders : List simulation_order) :
    ∀ (A : linear_allocator) (y : List net_message_order × linear_allocator),
      BroadcastOrders.Copy Orders A = some y →
        y.1 = Orders.map NetOrderOf ∧ y.2.Length = A.Length := by
  induction Orders with
  | nil =>
    intro A y hy
    simp only [BroadcastOrders.Copy, Option.some.injEq] at hy
    subst hy
    exact ⟨rfl, rfl⟩
  | cons o rest ih =>
    intro A y hy
    simp only [BroadcastOrders.Copy, Option.bind_eq_bind, Option.bind_eq_some,
      Option.some.injEq] at hy
    obtain ⟨A1, hA1, Copied, hC, hy⟩ := hy
    obtain ⟨h1, h2⟩ := ih _ _ hC
    subst hy
    refine ⟨?_, ?_⟩
    · simp only [List.map_cons, h1, NetOrderOf]
    · simp only [h2, LinearAllocate_length _ _ _ hA1]

theorem Broadcast_inv (h : headers) (Set : player_set) (Message : net_message)
    (Commands : chunk_list net_command) (A : linear_allocator)
    (Sent : linear_allocator × chunk_list net_command)
    (hS : Broadcast h Set Message Commands A = some Sent) :
    Sent = (A, Commands ++ [net_command.broadcast (BroadcastIDs Set) Message]) := by
  simp only [Broadcast, Option.bind_eq_bind, Option.bind_eq_some, Option.some.injEq] at hS
  obtain ⟨u, -, A1, hA1, hS⟩ := hS
  subst hS
  have hlen := LinearAllocate_length _ _ _ hA1
  simp only [ReleaseLinearAllocatorCheckpoint, CreateLinearAllocatorCheckpoint, ChunkListWrite,
    hlen]

theorem BroadcastOrders_inv (h : headers) (Set : player_set) (Orders : List simulation_order)
    (Commands : chunk_list net_command) (A : linear_allocator)
    (Sent : linear_allocator × chunk_list net_command)
    (hS : BroadcastOrders h Set Orders Commands A = some Sent) :
    Sent = (A, Commands ++ [net_command.broadcast (BroadcastIDs Set)
      (net_message.order_list (Orders.map NetOrderOf))]) := by
  by_cases hlen : Orders.length ≠ 0
  · simp only [BroadcastOrders, if_pos hlen, Option.bind_eq_bind, Option.bind_eq_some,
      Option.some.injEq] at hS
    obtain ⟨A1, hA1, Copied, hC, A2, hA2, Sent2, hS2, hS⟩ := hS
    have hB := Broadcast_inv h Set _ Commands _ _ hS2
    subst hS
    rw [hB]
    obtain ⟨h1, h2⟩ := Copy_inv _ _ _ hC
    simp only [ReleaseLinearAllocatorCheckpoint, CreateLinearAllocatorCheckpoint, h1,
      LinearAllocate_length _ _ _ hA2, h2, LinearAllocate_length _ _ _ hA1]
  · simp only [BroadcastOrders, if_neg hlen, Option.bind_eq_bind, Option.bind_eq_some,
      Option.some.injEq] at hS
    obtain ⟨Copied, hC, A2, hA2, Sent2, hS2, hS⟩ := hS
    have hB := Broadcast_inv h Set _ Commands _ _ hS2
    subst hS
    subst hC
    rw [hB]
    simp only [ne_eq, not_not] at hlen
    have hnil : Orders = [] := List.length_eq_zero.mp hlen
    subst hnil
    simp only [ReleaseLinearAllocatorCheckpoint, CreateLinearAllocatorCheckpoint,
      LinearAllocate_length _ _ _ hA2, List.map_nil]

theorem SendStarts_inv (h : headers) (Set : player_set) (A : linear_allocator)
    (L : List memsize) :
    ∀ (NetCmds Out : chunk_list net_command),
      StartGame.SendStarts h Set A L NetCmds = some Out →
        Out = NetCmds ++ L.map (fun I =>
          net_command.send (Set.At I).ClientID (net_message.start Set.Count I)) := by
  induction L with
  | nil =>
    intro NetCmds Out hO
    simp only [StartGame.SendStarts, Option.some.injEq] at hO
    subst hO
    simp
  | cons I rest ih =>
    intro NetCmds Out hO
    simp only [StartGame.SendStarts, Option.bind_eq_bind, Option.bind_eq_some] at hO
    obtain ⟨u, -, A1, -, A2, -, hO⟩ := hO
    rw [ih _ _ hO]
    simp only [ChunkListWrite, List.map_cons, List.append_assoc, List.singleton_append]

/-- Every returned update took exactly one of the five clauses of `UpdateGame`
(termination, last player left, game start, tick, nothing to do), with the
result of that clause. -/
theorem UpdateGame_cases {σ : Type} (h : headers) (api : simulation_api σ)
    (Stale : memsize → simulation_order) (Time : uusec64) (Term : Bool)
    (Events : chunk_list net_event) (Commands : chunk_list net_command) (Running : Bool)
    (s s1 : game_state σ) (r : update_result σ)
    (hev : ProcessNetEvents h s Events = some s1)
    (hr : UpdateGame h api Stale Time Term Events Commands Running s = some r) :
    (s1.Mode ≠ game_mode_disconnecting ∧ Term = true ∧
      r = { State := { s1 with Mode := game_mode_disconnecting },
            Commands := Commands ++ [net_command.shutdown],
            Running := Running, Delay := 1000 }) ∨
    (¬ (s1.Mode ≠ game_mode_disconnecting ∧ Term = true) ∧
      s1.Mode ≠ game_mode_waiting_for_clients ∧ s1.PlayerSet.Count = 0 ∧
      r = { State := { s1 with Mode := game_mode_stopped },
            Commands := if s1.Mode ≠ game_mode_disconnecting then
                Commands ++ [net_command.shutdown] else Commands,
            Running := false, Delay := 1000 }) ∨
    (s1.Mode = game_mode_waiting_for_clients ∧ Term = false ∧
      s1.PlayerSet.Count = PLAYERS_MAX ∧
      r = { State := { s1 with
              PlayerSet :=
                { Players := (StartGame.CreatePlayers api (List.range s1.PlayerSet.Count)
                    s1.PlayerSet.Players (api.InitSimulation s1.Sim)).1,
                  Count := s1.PlayerSet.Count },
              Sim := CreatedSim api s1.PlayerSet.Count (api.InitSimulation s1.Sim),
              NextTickTime := (Time + h.SimulationTickDuration * 1000) % UUSEC64_RANGE,
              Mode := game_mode_active },
            Commands := Commands ++ (List.range s1.PlayerSet.Count).map (fun I =>
              net_command.send (s1.PlayerSet.At I).ClientID
                (net_message.start s1.PlayerSet.Count I)),
            Running := Running, Delay := 1000 }) ∨
    (s1.Mode = game_mode_active ∧ Term = false ∧ s1.PlayerSet.Count ≠ 0 ∧
      Time ≥ s1.NextTickTime ∧
      r = { State := { s1 with
              Sim := api.TickSimulation s1.Sim (TickOrderList Stale s1.OrderQueue),
              OrderQueue := [],
              NextTickTime :=
                (s1.NextTickTime + h.SimulationTickDuration * 1000) % UUSEC64_RANGE },
            Commands := Commands ++
              [net_command.broadcast (BroadcastIDs s1.PlayerSet)
                (net_message.order_list ((TickOrderList Stale s1.OrderQueue).map NetOrderOf))],
            Running := Running, Delay := 1000 }) ∨
    (¬ (s1.Mode ≠ game_mode_disconnecting ∧ Term = true) ∧
      ¬ (s1.Mode ≠ game_mode_waiting_for_clients ∧ s1.PlayerSet.Count = 0) ∧
      ¬ (s1.Mode = game_mode_waiting_for_clients ∧ s1.PlayerSet.Count = PLAYERS_MAX) ∧
      ¬ (s1.Mode = game_mode_active ∧ Time ≥ s1.NextTickTime) ∧
      r = { State := s1, Commands := Commands, Running := Running, Delay := 1000 }) := by
  rw [UpdateGame_after_drain h api Stale Time Term Events Commands Running s s1 hev] at hr
  unfold UpdateGame at hr
  simp only [ProcessNetEvents, Option.bind_eq_bind, Option.some_bind] at hr
  by_cases hg1 : s1.Mode ≠ game_mode_disconnecting ∧ Term = true
  · rw [if_pos hg1] at hr
    simp only [Option.bind_eq_some, Option.some.injEq] at hr
    obtain ⟨u, -, A1, hA1, hr⟩ := hr
    refine Or.inl ⟨hg1.1, hg1.2, ?_⟩
    rw [← hr]
    simp only [ReleaseLinearAllocatorCheckpoint, CreateLinearAllocatorCheckpoint,
      ChunkListWrite, LinearAllocate_length _ _ _ hA1]
  · rw [if_neg hg1] at hr
    have hterm : s1.Mode ≠ game_mode_disconnecting → Term = false := by
      intro hd
      cases Term with
      | false => rfl
      | true => exact absurd ⟨hd, rfl⟩ hg1
    by_cases hg2 : s1.Mode ≠ game_mode_waiting_for_clients ∧ s1.PlayerSet.Count = 0
    · rw [if_pos hg2] at hr
      refine Or.inr (Or.inl ⟨hg1, hg2.1, hg2.2, ?_⟩)
      by_cases hd : s1.Mode ≠ game_mode_disconnecting
      · rw [if_pos hd] at hr ⊢
        simp only [Option.bind_eq_some, Option.some.injEq] at hr
        obtain ⟨u, -, A1, hA1, hr⟩ := hr
        rw [← hr]
        simp only [ReleaseLinearAllocatorCheckpoint, CreateLinearAllocatorCheckpoint,
          ChunkListWrite, LinearAllocate_length _ _ _ hA1]
      · rw [if_neg hd] at hr ⊢
        simp only [Option.some.injEq] at hr
        rw [← hr]
    · rw [if_neg hg2] at hr
      by_cases hg3 : s1.Mode = game_mode_waiting_for_clients ∧
          s1.PlayerSet.Count = PLAYERS_MAX
      · rw [if_pos hg3] at hr
        refine Or.inr (Or.inr (Or.inl
          ⟨hg3.1, hterm (by rw [hg3.1]; decide), hg3.2, ?_⟩))
        simp only [StartGame, Option.bind_eq_bind, Option.bind_eq_some,
          Option.some.injEq] at hr
        obtain ⟨Started, ⟨Cmds, hC, hst⟩, hr⟩ := hr
        have hinv := SendStarts_inv h _ _ _ _ _ hC
        simp only [player_set.At, CreatePlayers_range_ClientID] at hinv
        rw [← hr, ← hst, hinv]
        simp only [CreatePlayers_sim, List.length_range, player_set.At]
      · rw [if_neg hg3] at hr
        by_cases hg4 : s1.Mode = game_mode_active
        · rw [if_pos hg4] at hr
          by_cases hti : Time ≥ s1.NextTickTime
          · have hco : s1.PlayerSet.Count ≠ 0 := by
              intro hc
              exact hg2 ⟨by rw [hg4]; decide, hc⟩
            refine Or.inr (Or.inr (Or.inr (Or.inl
              ⟨hg4, hterm (by rw [hg4]; decide), hco, hti, ?_⟩)))
            rw [if_pos hti] at hr
            by_cases hq : chunk_list.Count s1.OrderQueue ≠ 0
            · rw [if_pos hq] at hr
              simp only [Option.bind_eq_some, Option.some.injEq] at hr
              obtain ⟨A1, hA1, y, hy, Sent, hS, hr⟩ := hr
              obtain ⟨hy1, hy2⟩ := Drain_inv h _ _ _ _ _ hy
              have hB := BroadcastOrders_inv h _ _ _ _ _ hS
              have hL : TickOrderList Stale s1.OrderQueue = y.1 := by
                unfold TickOrderList
                rw [if_pos hq, hy1]
              rw [← hr, hB, hL]
              simp only [ReleaseLinearAllocatorCheckpoint, CreateLinearAllocatorCheckpoint,
                ResetChunkList, hy2, LinearAllocate_length _ _ _ hA1]
            · rw [if_neg hq] at hr
              simp only [Option.bind_eq_some, Option.some.injEq] at hr
              obtain ⟨Sent, hS, hr⟩ := hr
              have hB := BroadcastOrders_inv h _ _ _ _ _ hS
              have hL : TickOrderList Stale s1.OrderQueue = [] := by
                unfold TickOrderList
                rw [if_neg hq]
              rw [← hr, hB, hL]
              simp only [ReleaseLinearAllocatorCheckpoint, CreateLinearAllocatorCheckpoint,
                ResetChunkList]
          · rw [if_neg hti] at hr
            simp only [Option.some.injEq] at hr
            exact Or.inr (Or.inr (Or.inr (Or.inr
              ⟨hg1, hg2, hg3, fun hx => hti hx.2, hr.symm⟩)))
        · rw [if_neg hg4] at hr
          simp only [ite_self, Option.some.injEq] at hr
          exact Or.inr (Or.inr (Or.inr (Or.inr
            ⟨hg1, hg2, hg3, fun hx => hg4 hx.1, hr.symm⟩)))

/-! ## Simulation ids of the roster -/

theorem AddPlayer_At (Set : player_set) (c : net_client_id) (J : Nat) :
    (AddPlayer Set c).At J =
      if Set.Count = J ∧ Set.Count < Set.Players.length then { SimID := 0, ClientID := c }
      else Set.At J := by
  simp only [AddPlayer, player_set.At, getD_set_eq]

theorem At_out_of_range (Set : player_set) (J : Nat) (hJ : Set.Players.length ≤ J) :
    Set.At J = default := by
  simp only [player_set.At]
  exact List.getD_eq_default _ _ hJ

theorem AddPlayer_defined (h : headers) (hU : h.SIMULATION_UNDEFINED_PLAYER_ID ≠ 0)
    (Set : player_set) (c : net_client_id) (hSet : PlayersDefined h Set) :
    PlayersDefined h (AddPlayer Set c) := by
  intro I hI
  rw [AddPlayer_At]
  have hI2 : I < Set.Count + 1 := hI
  split
  · exact fun h0 => hU h0.symm
  · rename_i hne
    by_cases hlt : I < Set.Count
    · exact hSet I hlt
    · have hIeq : Set.Count = I := (Nat.eq_of_lt_succ_of_not_lt hI2 hlt).symm
      have hlen : Set.Players.length ≤ I := by
        by_contra hcon
        exact hne ⟨hIeq, by rw [hIeq]; exact Nat.lt_of_not_le hcon⟩
      rw [At_out_of_range Set I hlen]
      exact fun h0 => hU h0.symm

theorem RemovePlayer_defined (h : headers) (Set : player_set) (Index : memsize)
    (hSet : PlayersDefined h Set) : PlayersDefined h (RemovePlayer Set Index) := by
  intro I hI
  have hI2 : I < Set.Count - 1 := hI
  exact hSet I (Nat.lt_of_lt_of_le hI2 (Nat.sub_le _ _))

theorem ProcessNetEvents_defined {σ : Type} (h : headers)
    (hU : h.SIMULATION_UNDEFINED_PLAYER_ID ≠ 0) (Events : chunk_list net_event) :
    ∀ (s s1 : game_state σ), ProcessNetEvents h s Events = some s1 →
      PlayersDefined h s.PlayerSet → PlayersDefined h s1.PlayerSet := by
  induction Events with
  | nil =>
    intro s s1 hs hd
    simp [ProcessNetEvents] at hs
    subst hs
    exact hd
  | cons e rest ih =>
    intro s s1 hs hd
    cases e with
    | connect c =>
      simp only [ProcessNetEvents] at hs
      split at hs
      · exact ih _ _ hs (AddPlayer_defined h hU _ c hd)
      · exact ih _ _ hs hd
    | disconnect c =>
      simp only [ProcessNetEvents] at hs
      split at hs
      · rename_i PlayerIndex hfind
        exact ih _ _ hs (RemovePlayer_defined h s.PlayerSet PlayerIndex hd)
      · exact ih _ _ hs hd
    | message c m =>
      simp only [ProcessNetEvents] at hs
      split at hs
      · exact ih _ _ hs hd
      · exact absurd hs (by simp)
    | unknown => exact absurd hs (by simp [ProcessNetEvents])

theorem CreatePlayers_defined {σ : Type} (h : headers) (api : simulation_api σ)
    (hcp : ∀ S, (api.SimulationCreatePlayer S).1 ≠ h.SIMULATION_UNDEFINED_PLAYER_ID)
    (Set : player_set) (S : σ) (hSet : PlayersDefined h Set) :
    PlayersDefined h
      { Players := (StartGame.CreatePlayers api (List.range Set.Count) Set.Players S).1,
        Count := Set.Count } := by
  intro I hI
  simp only [player_set.At, CreatePlayers_range_slot]
  split
  · exact hcp _
  · exact hSet I hI

theorem UpdateGame_defined {σ : Type} (h : headers) (api : simulation_api σ)
    (hU : h.SIMULATION_UNDEFINED_PLAYER_ID ≠ 0)
    (hcp : ∀ S, (api.SimulationCreatePlayer S).1 ≠ h.SIMULATION_UNDEFINED_PLAYER_ID)
    (Stale : memsize → simulation_order) (Time : uusec64) (Term : Bool)
    (Events : chunk_list net_event) (Commands : chunk_list net_command) (Running : Bool)
    (s : game_state σ) (r : update_result σ)
    (hr : UpdateGame h api Stale Time Term Events Commands Running s = some r)
    (hd : PlayersDefined h s.PlayerSet) : PlayersDefined h r.State.PlayerSet := by
  cases hev : ProcessNetEvents h s Events with
  | none =>
    rw [UpdateGame_drain_abort h api Stale Time Term Events Commands Running s hev] at hr
    exact absurd hr (by simp)
  | some s1 =>
    have hd1 := ProcessNetEvents_defined h hU Events s s1 hev hd
    rcases UpdateGame_cases h api Stale Time Term Events Commands Running s s1 r hev hr with
      ⟨-, -, hr⟩ | ⟨-, -, -, hr⟩ | ⟨-, -, -, hr⟩ | ⟨-, -, -, -, hr⟩ | ⟨-, -, -, -, hr⟩
    · rw [hr]; exact hd1
    · rw [hr]; exact hd1
    · rw [hr]; exact CreatePlayers_defined h api hcp _ _ hd1
    · rw [hr]; exact hd1
    · rw [hr]; exact hd1

theorem InitGame_count {σ : Type} (h : headers) (MemoryLength : memsize)
    (Prior s : game_state σ) (hinit : InitGame h MemoryLength Prior = some s) :
    s.PlayerSet.Count = 0 := by
  simp only [InitGame, Option.bind_eq_bind, Option.bind_eq_some, Option.some.injEq] at hinit
  obtain ⟨A, -, hs⟩ := hinit
  rw [← hs]
  rfl

theorem Reachable_defined {σ : Type} (h : headers) (api : simulation_api σ)
    (hU : h.SIMULATION_UNDEFINED_PLAYER_ID ≠ 0)
    (hcp : ∀ S, (api.SimulationCreatePlayer S).1 ≠ h.SIMULATION_UNDEFINED_PLAYER_ID)
    (s : game_state σ) (hs : Reachable h api s) : PlayersDefined h s.PlayerSet := by
  induction hs with
  | init MemoryLength Prior s hslots hinit =>
    intro I hI
    rw [InitGame_count h MemoryLength Prior s hinit] at hI
    exact absurd hI (Nat.not_lt_zero _)
  | update Stale Time Term Events Commands Running s r _ hr ih =>
    exact UpdateGame_defined h api hU hcp Stale Time Term Events Commands Running s r hr ih

/-- C5: provided the sentinel `SIMULATION_UNDEFINED_PLAYER_ID` is not 0 and
`SimulationCreatePlayer` never returns it, every roster entry in use of every
reachable state has a simulation id other than the sentinel, in
`game_mode_active` in particular: an entry is written by `AddPlayer` (id 0,
also for a client that joins a running game) or by `StartGame` (a created
id). -/
theorem Reachable_active_players_defined {σ : Type} (h : headers) (api : simulation_api σ)
    (hU : h.SIMULATION_UNDEFINED_PLAYER_ID ≠ 0)
    (hcp : ∀ S, (api.SimulationCreatePlayer S).1 ≠ h.SIMULATION_UNDEFINED_PLAYER_ID)
    (s : game_state σ) (hs : Reachable h api s) (_hmode : s.Mode = game_mode_active) :
    ∀ I, I < s.PlayerSet.Count →
      (s.PlayerSet.At I).SimID ≠ h.SIMULATION_UNDEFINED_PLAYER_ID :=
  Reachable_defined h api hU hcp s hs

/-- The recording simulation never hands out the sentinel of the sample headers. -/
theorem trace_api_creates_defined (S : List sim_call) :
    (trace_api.SimulationCreatePlayer S).1 ≠ sample_headers.SIMULATION_UNDEFINED_PLAYER_ID := by
  simp only [trace_api, sample_headers]
  exact Nat.ne_of_lt (Nat.mod_lt _ (by decide))

/-- The sample game with the late joiner is reachable: connect(7) at time 0,
then disconnect(7) and connect(9) at time 5000. -/
theorem sample_late_join_reachable : Reachable sample_headers trace_api sample_late_join :=
  Reachable.update sample_stale 5000 false [net_event.disconnect 7, net_event.connect 9] [] true
    sample_active
    { State := sample_late_join, Commands := [], Running := true, Delay := 1000 }
    (Reachable.update sample_stale 0 false [net_event.connect 7] [] true sample_initial
      { State := sample_active, Commands := [net_command.send 7 (net_message.start 1 0)],
        Running := true, Delay := 1000 }
      (Reachable.init 100000 zeroed_memory sample_initial rfl rfl) rfl)
    rfl

/-- The client that joined the running sample game has a simulation id other
than the sentinel. -/
theorem Reachable_active_players_defined_witness :
    sample_late_join.Mode = game_mode_active ∧
      (sample_late_join.PlayerSet.At 0).ClientID = 9 ∧
      (sample_late_join.PlayerSet.At 0).SimID ≠ sample_headers.SIMULATION_UNDEFINED_PLAYER_ID :=
  ⟨rfl, rfl,
   Reachable_active_players_defined sample_headers trace_api (by decide)
     trace_api_creates_defined sample_late_join sample_late_join_reachable rfl 0 (by decide)⟩

/-! ## The simulation id written by `AddPlayer` -/

/-- On an empty roster with a slot to spare, `AddPlayer` leaves one entry,
the new client with simulation id 0, and `FindSimIDByClientID` returns that 0. -/
theorem AddPlayer_on_empty (h : headers) (Set : player_set) (c : net_client_id)
    (hcount : Set.Count = 0) (hslots : Set.Players.length = PLAYERS_MAX) :
    (AddPlayer Set c).Count = 1 ∧
      (AddPlayer Set c).At 0 = { SimID := 0, ClientID := c } ∧
      FindSimIDByClientID h (AddPlayer Set c) c = 0 := by
  have hat : (AddPlayer Set c).At 0 = { SimID := 0, ClientID := c } := by
    rw [AddPlayer_At, if_pos]
    rw [hcount, hslots]
    exact ⟨rfl, by decide⟩
  have hcnt : (AddPlayer Set c).Count = 1 := by
    simp only [AddPlayer, hcount]
  refine ⟨hcnt, hat, ?_⟩
  simp only [FindSimIDByClientID, hcnt, List.range_succ, List.range_zero, List.nil_append,
    List.find?, hat, decide_True]

/-- C6 fails on the code: a connect event drained in
`game_mode_waiting_for_clients` leaves a roster entry whose simulation id is
the literal 0 written by `AddPlayer`, which is the sentinel
`SIMULATION_UNDEFINED_PLAYER_ID` only if the sentinel is 0; for every other
sentinel the entry counts as defined and `FindSimIDByClientID` returns 0 for
the new client. -/
theorem connect_stores_zero_sim_id {σ : Type} (h : headers) (s : game_state σ)
    (c : net_client_id)
    (hmode : s.Mode = game_mode_waiting_for_clients)
    (hcount : s.PlayerSet.Count = 0)
    (hslots : s.PlayerSet.Players.length = PLAYERS_MAX) :
    ProcessNetEvents h s [net_event.connect c] =
        some { s with PlayerSet := AddPlayer s.PlayerSet c } ∧
      ({ s with PlayerSet := AddPlayer s.PlayerSet c } : game_state σ).Mode =
        game_mode_waiting_for_clients ∧
      (AddPlayer s.PlayerSet c).Count = 1 ∧
      (AddPlayer s.PlayerSet c).At 0 = { SimID := 0, ClientID := c } ∧
      FindSimIDByClientID h (AddPlayer s.PlayerSet c) c = 0 ∧
      (h.SIMULATION_UNDEFINED_PLAYER_ID ≠ 0 →
        ((AddPlayer s.PlayerSet c).At 0).SimID ≠ h.SIMULATION_UNDEFINED_PLAYER_ID) := by
  have hne : s.PlayerSet.Count ≠ PLAYERS_MAX := by
    rw [hcount]
    decide
  obtain ⟨hcnt, hat, hfind⟩ := AddPlayer_on_empty h s.PlayerSet c hcount hslots
  refine ⟨?_, hmode, hcnt, hat, hfind, ?_⟩
  · simp only [ProcessNetEvents, if_pos hne]
  · intro hU
    rw [hat]
    exact fun h0 => hU h0.symm

/-- Client 7 connecting to the fresh sample game gets simulation id 0, while
the sentinel of the sample headers is 8. -/
theorem connect_stores_zero_sim_id_witness :
    ProcessNetEvents sample_headers sample_initial [net_event.connect 7] =
        some { sample_initial with
          PlayerSet := { Players := [{ SimID := 0, ClientID := 7 }], Count := 1 } } ∧
      FindSimIDByClientID sample_headers
        { Players := [{ SimID := 0, ClientID := 7 }], Count := 1 } 7 = 0 ∧
      sample_headers.SIMULATION_UNDEFINED_PLAYER_ID = 8 :=
  ⟨(connect_stores_zero_sim_id sample_headers sample_initial 7 rfl rfl rfl).1,
   (connect_stores_zero_sim_id sample_headers sample_initial 7 rfl rfl rfl).2.2.2.2.1,
   rfl⟩

/-- Whatever the non-zero sentinel, an order that follows its sender's connect
event in the same drain is written to the staging queue, with player id 0. -/
theorem early_order_is_staged {σ : Type} (h : headers) (s : game_state σ)
    (c : net_client_id) (u : List simulation_unit_id) (t : ivec2)
    (_hmode : s.Mode = game_mode_waiting_for_clients)
    (hcount : s.PlayerSet.Count = 0)
    (hslots : s.PlayerSet.Players.length = PLAYERS_MAX)
    (hU : h.SIMULATION_UNDEFINED_PLAYER_ID ≠ 0)
    (hfit : h.UnserializeOrderNetMessageBytes u t +
      h.SerializeOrderBytes { PlayerID := 0, UnitIDs := u, Target := t } ≤
        GetLinearAllocatorFree s.Allocator) :
    ProcessNetEvents h s [net_event.connect c, net_event.message c (net_message.order u t)] =
      some { s with
        PlayerSet := AddPlayer s.PlayerSet c,
        OrderQueue := s.OrderQueue ++ [{ PlayerID := 0, UnitIDs := u, Target := t }] } := by
  obtain ⟨-, -, hfind⟩ := AddPlayer_on_empty h s.PlayerSet c hcount hslots
  have hne : s.PlayerSet.Count ≠ PLAYERS_MAX := by
    rw [hcount]
    decide
  have h1 := fits_left _ _ _ hfit
  have h2 := fits_right s.Allocator _ _ hfit
  have hU2 : ¬ (0 = h.SIMULATION_UNDEFINED_PLAYER_ID) := fun h0 => hU h0.symm
  simp only [ProcessNetEvents, if_pos hne, ProcessMessageEvent, LinearAllocate_of_le _ _ h1,
    Option.bind_eq_bind, Option.some_bind, hfind, ne_eq, hU2, not_false_eq_true, if_true,
    LinearAllocate_of_le _ _ h2, ChunkListWrite, ReleaseLinearAllocatorCheckpoint,
    CreateLinearAllocatorCheckpoint]

/-- The order client 7 sends right after connecting to the fresh sample game is
staged. -/
theorem early_order_is_staged_witness :
    ProcessNetEvents sample_headers sample_initial
        [net_event.connect 7,
         net_event.message 7 (net_message.order [3, 5] { X := 100, Y := 200 })] =
      some { sample_initial with
        PlayerSet := { Players := [{ SimID := 0, ClientID := 7 }], Count := 1 },
        OrderQueue := [{ PlayerID := 0, UnitIDs := [3, 5], Target := { X := 100, Y := 200 } }] } :=
  early_order_is_staged sample_headers sample_initial 7 [3, 5] { X := 100, Y := 200 }
    rfl rfl rfl (by decide) (by decide)

/-- C7 fails on the code: client 7 connects and sends an order within one
update of a waiting game.  The order is staged (the entry `AddPlayer` wrote has
simulation id 0, not the sentinel), the game starts in the same update, and the
first `order_list` broadcast after the start carries the order. -/
theorem UpdateGame_early_order_reaches_first_broadcast :
    UpdateGame sample_headers trace_api sample_stale 0 false
        [net_event.connect 7,
         net_event.message 7 (net_message.order [3, 5] { X := 100, Y := 200 })]
        [] true sample_initial =
      some { State := { sample_active with
               OrderQueue :=
                 [{ PlayerID := 0, UnitIDs := [3, 5], Target := { X := 100, Y := 200 } }] },
             Commands := [net_command.send 7 (net_message.start 1 0)],
             Running := true, Delay := 1000 } ∧
    UpdateGame sample_headers trace_api sample_stale 20000 false [] [] true
        { sample_active with
          OrderQueue :=
            [{ PlayerID := 0, UnitIDs := [3, 5], Target := { X := 100, Y := 200 } }] } =
      some { State := { sample_active with
               Sim := [sim_call.init, sim_call.create_player,
                 sim_call.tick
                   [{ PlayerID := 0, UnitIDs := [3, 5], Target := { X := 100, Y := 200 } }]],
               NextTickTime := 40000 },
             Commands := [net_command.broadcast [7] (net_message.order_list
               [{ PlayerID := 0, UnitIDs := [3, 5], Target := { X := 100, Y := 200 } }])],
             Running := true, Delay := 1000 } := by
  constructor
  · rfl
  · rfl

/-! ## Which slots the drain loop writes -/

/-- The drain loop started at index `I` leaves slot `J` alone when `J < I` or
`Count + I ≤ 2 * J`: the loop bound shrinks by one with every record read. -/
theorem DrainedOrders_untouched (Queue : chunk_list simulation_order) :
    ∀ (I : Nat) (Orders : List simulation_order) (J : Nat) (d : simulation_order),
      (J < I ∨ Queue.length + I ≤ 2 * J) →
      (DrainedOrders I Queue Orders).getD J d = Orders.getD J d := by
  induction Queue with
  | nil =>
    intro I Orders J d _
    simp only [DrainedOrders]
  | cons o rest ih =>
    intro I Orders J d hJ
    simp only [DrainedOrders, chunk_list.Count]
    split
    · rename_i hI
      simp only [List.length_cons, memsize] at hI hJ
      have hrec : J < I + 1 ∨ rest.length + (I + 1) ≤ 2 * J := by omega
      have hIJ : ¬ (I = J ∧ I < Orders.length) := by omega
      rw [ih (I + 1) (Orders.set I o) J d hrec, getD_set_eq, if_neg hIJ]
    · rfl

/-- With two or more staged orders, the last slot of the order list a tick
frame builds still holds what the fresh array held: the last order staged is
never delivered. -/
theorem TickOrderList_last_slot_stale (Stale : Nat → simulation_order)
    (Queue : chunk_list simulation_order) (d : simulation_order)
    (hn : 2 ≤ Queue.length) :
    (TickOrderList Stale Queue).getD (Queue.length - 1) d = Stale (Queue.length - 1) := by
  have hq : chunk_list.Count Queue ≠ 0 := by
    simp only [chunk_list.Count, memsize]
    omega
  unfold TickOrderList
  rw [if_pos hq, DrainedOrders_untouched Queue 0 _ _ d (Or.inr (by omega))]
  simp only [chunk_list.Count, List.getD_eq_getElem?_getD]
  rw [List.getElem?_map, List.getElem?_range (by omega)]
  rfl

/-! ## Size of the roster -/

theorem ProcessNetEvents_count_le {σ : Type} (h : headers) (Events : chunk_list net_event) :
    ∀ (s s1 : game_state σ), ProcessNetEvents h s Events = some s1 →
      s.PlayerSet.Count ≤ PLAYERS_MAX → s1.PlayerSet.Count ≤ PLAYERS_MAX := by
  induction Events with
  | nil =>
    intro s s1 hs hle
    simp [ProcessNetEvents] at hs
    subst hs
    exact hle
  | cons e rest ih =>
    intro s s1 hs hle
    cases e with
    | connect c =>
      simp only [ProcessNetEvents] at hs
      split at hs
      · rename_i hne
        exact ih _ _ hs (Nat.lt_of_le_of_ne hle hne)
      · exact ih _ _ hs hle
    | disconnect c =>
      simp only [ProcessNetEvents] at hs
      split at hs
      · exact ih _ _ hs (Nat.le_trans (Nat.sub_le _ _) hle)
      · exact ih _ _ hs hle
    | message c m =>
      simp only [ProcessNetEvents] at hs
      split at hs
      · exact ih _ _ hs hle
      · exact absurd hs (by simp)
    | unknown => exact absurd hs (by simp [ProcessNetEvents])

/-- In every reachable state the roster holds at most `PLAYERS_MAX` players,
and none at all while the mode is `game_mode_waiting_for_clients`: with
`PLAYERS_MAX = 1` the first player to stay fills the roster, and the same
update starts the game or begins the shutdown. -/
theorem Reachable_count {σ : Type} (h : headers) (api : simulation_api σ)
    (s : game_state σ) (hs : Reachable h api s) :
    s.PlayerSet.Count ≤ PLAYERS_MAX ∧
      (s.Mode = game_mode_waiting_for_clients → s.PlayerSet.Count = 0) := by
  induction hs with
  | init MemoryLength Prior s hslots hinit =>
    have h0 := InitGame_count h MemoryLength Prior s hinit
    exact ⟨by rw [h0]; exact Nat.zero_le _, fun _ => h0⟩
  | update Stale Time Term Events Commands Running s r _ hr ih =>
    cases hev : ProcessNetEvents h s Events with
    | none =>
      rw [UpdateGame_drain_abort h api Stale Time Term Events Commands Running s hev] at hr
      exact absurd hr (by simp)
    | some s1 =>
      have hle := ProcessNetEvents_count_le h Events s s1 hev ih.1
      rcases UpdateGame_cases h api Stale Time Term Events Commands Running s s1 r hev hr with
        ⟨-, -, hr⟩ | ⟨-, -, -, hr⟩ | ⟨-, -, -, hr⟩ | ⟨hm, -, -, -, hr⟩ | ⟨-, -, hns, -, hr⟩
      · rw [hr]
        exact ⟨hle, fun hw => absurd hw (by simp)⟩
      · rw [hr]
        exact ⟨hle, fun hw => absurd hw (by simp)⟩
      · rw [hr]
        exact ⟨hle, fun hw => absurd hw (by simp)⟩
      · rw [hr]
        refine ⟨hle, fun hw => ?_⟩
        have hw2 : s1.Mode = game_mode_waiting_for_clients := hw
        rw [hm] at hw2
        exact absurd hw2 (by simp)
      · rw [hr]
        refine ⟨hle, fun hw => ?_⟩
        have hne : s1.PlayerSet.Count ≠ PLAYERS_MAX := fun hc => hns ⟨hw, hc⟩
        have hlt : s1.PlayerSet.Count < 1 := Nat.lt_of_le_of_ne hle hne
        exact Nat.lt_one_iff.mp hlt

/-! ## The last player leaves -/

/-- C11: when the mode is not `game_mode_waiting_for_clients`, the roster is
empty after the event drain and the termination clause does not apply
(no termination request, or the mode is already `game_mode_disconnecting`),
`UpdateGame` sets the mode to `game_mode_stopped` and `Running` to false, and
appends one `shutdown` command if the mode was not `game_mode_disconnecting`
and no command if it was. -/
theorem UpdateGame_last_player_leaves {σ : Type} (h : headers) (api : simulation_api σ)
    (Stale : memsize → simulation_order) (Time : uusec64) (Term : Bool)
    (Events : chunk_list net_event) (Commands : chunk_list net_command) (Running : Bool)
    (s s1 : game_state σ)
    (hmode : s.Mode ≠ game_mode_waiting_for_clients)
    (hev : ProcessNetEvents h s Events = some s1)
    (hcount : s1.PlayerSet.Count = 0)
    (hterm : Term = false ∨ s.Mode = game_mode_disconnecting)
    (hmax : s.Mode ≠ game_mode_disconnecting →
      h.NET_COMMAND_MAX_LENGTH ≤ GetLinearAllocatorFree s.Allocator)
    (hfit : s.Mode ≠ game_mode_disconnecting →
      h.SerializeShutdownNetCommandBytes ≤ GetLinearAllocatorFree s.Allocator) :
    UpdateGame h api Stale Time Term Events Commands Running s =
      some { State := { s1 with Mode := game_mode_stopped },
             Commands := if s.Mode ≠ game_mode_disconnecting then
                 Commands ++ [net_command.shutdown] else Commands,
             Running := false,
             Delay := 1000 } := by
  obtain ⟨hm, -, -, ha⟩ := ProcessNetEvents_frame h Events s s1 hev
  rw [← hm] at hmode hterm hmax hfit ⊢
  rw [← ha] at hmax hfit
  have hg1 : ¬ (s1.Mode ≠ game_mode_disconnecting ∧ Term = true) := by
    rintro ⟨hd, ht⟩
    rcases hterm with hf | hdis
    · rw [hf] at ht
      exact absurd ht (by decide)
    · exact hd hdis
  have hg2 : s1.Mode ≠ game_mode_waiting_for_clients ∧ s1.PlayerSet.Count = 0 :=
    ⟨hmode, hcount⟩
  rw [UpdateGame_after_drain h api Stale Time Term Events Commands Running s s1 hev]
  unfold UpdateGame
  simp only [ProcessNetEvents, Option.bind_eq_bind, Option.some_bind]
  rw [if_neg hg1, if_pos hg2]
  by_cases hd : s1.Mode ≠ game_mode_disconnecting
  · rw [if_pos hd, if_pos hd]
    simp only [Assert_of _ (hmax hd), LinearAllocate_of_le _ _ (hfit hd), Option.bind_eq_bind,
      Option.some_bind, Release_after_allocate, ChunkListWrite]
  · rw [if_neg hd, if_neg hd]

/-- The only client of the running sample game leaves: one `shutdown`, mode
`game_mode_stopped`, `Running` false. -/
theorem UpdateGame_last_player_leaves_witness :
    UpdateGame sample_headers trace_api sample_stale 5000 false [net_event.disconnect 7] [] true
        sample_active =
      some { State := sample_stopped, Commands := [net_command.shutdown],
             Running := false, Delay := 1000 } :=
  UpdateGame_last_player_leaves sample_headers trace_api sample_stale 5000 false
    [net_event.disconnect 7] [] true sample_active
    { sample_active with PlayerSet := { Players := [{ SimID := 0, ClientID := 7 }], Count := 0 } }
    (by decide) rfl rfl (Or.inl rfl) (fun _ => by decide) (fun _ => by decide)

/-! ## The mode `game_mode_disconnecting` -/

/-- C12: from `game_mode_disconnecting`, whatever the time, the termination
flag and the events, `UpdateGame` returns as soon as the event drain does:
with a non-empty roster after the drain the result is the drained state, still
disconnecting, with no command appended and `Running` untouched; with an
empty roster the mode becomes `game_mode_stopped`, `Running` false, and still
no command is appended.  The simulation and the tick deadline are those of the
entry state, and the resulting mode is neither waiting nor active. -/
theorem UpdateGame_disconnecting {σ : Type} (h : headers) (api : simulation_api σ)
    (Stale : memsize → simulation_order) (Time : uusec64) (Term : Bool)
    (Events : chunk_list net_event) (Commands : chunk_list net_command) (Running : Bool)
    (s s1 : game_state σ)
    (hmode : s.Mode = game_mode_disconnecting)
    (hev : ProcessNetEvents h s Events = some s1) :
    (s1.PlayerSet.Count ≠ 0 →
        UpdateGame h api Stale Time Term Events Commands Running s =
          some { State := s1, Commands := Commands, Running := Running, Delay := 1000 }) ∧
      (s1.PlayerSet.Count = 0 →
        UpdateGame h api Stale Time Term Events Commands Running s =
          some { State := { s1 with Mode := game_mode_stopped }, Commands := Commands,
                 Running := false, Delay := 1000 }) ∧
      s1.Mode = game_mode_disconnecting ∧ s1.Sim = s.Sim ∧
      s1.NextTickTime = s.NextTickTime ∧
      (∀ r, UpdateGame h api Stale Time Term Events Commands Running s = some r →
        r.State.Mode ≠ game_mode_waiting_for_clients ∧ r.State.Mode ≠ game_mode_active) := by
  obtain ⟨hm, ht, hs, -⟩ := ProcessNetEvents_frame h Events s s1 hev
  rw [hmode] at hm
  have hone : s1.PlayerSet.Count ≠ 0 →
      UpdateGame h api Stale Time Term Events Commands Running s =
        some { State := s1, Commands := Commands, Running := Running, Delay := 1000 } := by
    intro hc
    rw [UpdateGame_after_drain h api Stale Time Term Events Commands Running s s1 hev]
    unfold UpdateGame
    simp only [ProcessNetEvents, Option.bind_eq_bind, Option.some_bind, hm, hc, ne_eq,
      not_true_eq_false, false_and, and_false, reduceCtorEq, if_false, if_true]
  have hzero : s1.PlayerSet.Count = 0 →
      UpdateGame h api Stale Time Term Events Commands Running s =
        some { State := { s1 with Mode := game_mode_stopped }, Commands := Commands,
               Running := false, Delay := 1000 } := by
    intro hc
    rw [UpdateGame_after_drain h api Stale Time Term Events Commands Running s s1 hev]
    unfold UpdateGame
    simp only [ProcessNetEvents, Option.bind_eq_bind, Option.some_bind, hm, hc, ne_eq,
      not_true_eq_false, false_and, and_self, not_false_eq_true, reduceCtorEq, if_false,
      if_true]
  refine ⟨hone, hzero, hm, hs, ht, ?_⟩
  intro r hr
  by_cases hc : s1.PlayerSet.Count = 0
  · rw [hzero hc] at hr
    simp only [Option.some.injEq] at hr
    rw [← hr]
    exact ⟨by simp, by simp⟩
  · rw [hone hc] at hr
    simp only [Option.some.injEq] at hr
    rw [← hr]
    simp only [hm]
    exact ⟨by simp, by simp⟩

/-- The sample game, set to disconnecting, stays so while client 7 remains, even
past the tick deadline and with termination requested again. -/
theorem UpdateGame_disconnecting_witness :
    UpdateGame sample_headers trace_api sample_stale 90000 true [] [] true
        { sample_active with Mode := game_mode_disconnecting } =
      some { State := { sample_active with Mode := game_mode_disconnecting },
             Commands := [], Running := true, Delay := 1000 } :=
  (UpdateGame_disconnecting sample_headers trace_api sample_stale 90000 true [] [] true
    { sample_active with Mode := game_mode_disconnecting }
    { sample_active with Mode := game_mode_disconnecting } rfl rfl).1 (by decide)

/-! ## The arena across an update -/

/-- C15: whenever `UpdateGame` returns, the arena of the resulting state is the
arena of the entry state, bump position included: every checkpoint taken while
draining messages, starting the game, emitting `shutdown` or running a tick
frame has been released. -/
theorem UpdateGame_restores_arena {σ : Type} (h : headers) (api : simulation_api σ)
    (Stale : memsize → simulation_order) (Time : uusec64) (Term : Bool)
    (Events : chunk_list net_event) (Commands : chunk_list net_command) (Running : Bool)
    (s : game_state σ) (r : update_result σ)
    (hr : UpdateGame h api Stale Time Term Events Commands Running s = some r) :
    r.State.Allocator.Used = s.Allocator.Used ∧ r.State.Allocator = s.Allocator := by
  cases hev : ProcessNetEvents h s Events with
  | none =>
    rw [UpdateGame_drain_abort h api Stale Time Term Events Commands Running s hev] at hr
    exact absurd hr (by simp)
  | some s1 =>
    obtain ⟨-, -, -, ha⟩ := ProcessNetEvents_frame h Events s s1 hev
    have hall : r.State.Allocator = s1.Allocator := by
      rcases UpdateGame_cases h api Stale Time Term Events Commands Running s s1 r hev hr with
        ⟨-, -, hr⟩ | ⟨-, -, -, hr⟩ | ⟨-, -, -, hr⟩ | ⟨-, -, -, -, hr⟩ | ⟨-, -, -, -, hr⟩
      all_goals rw [hr]
    rw [hall, ha]
    exact ⟨rfl, rfl⟩

/-- An update of the running sample game that stages one order, drops another
(client 9 is unknown) and runs a tick frame leaves the bump position at 20480. -/
theorem UpdateGame_restores_arena_witness :
    UpdateGame sample_headers trace_api sample_stale 20000 false
        [net_event.message 7 (net_message.order [3, 5] { X := 100, Y := 200 }),
         net_event.message 9 (net_message.order [4] { X := 1, Y := 2 })]
        [] true sample_active =
      some { State := { sample_active with
               Sim := [sim_call.init, sim_call.create_player,
                 sim_call.tick
                   [{ PlayerID := 0, UnitIDs := [3, 5], Target := { X := 100, Y := 200 } }]],
               NextTickTime := 40000 },
             Commands := [net_command.broadcast [7] (net_message.order_list
               [{ PlayerID := 0, UnitIDs := [3, 5], Target := { X := 100, Y := 200 } }])],
             Running := true, Delay := 1000 } ∧
      sample_active.Allocator.Used = 20480 ∧
      ({ sample_active with
          Sim := [sim_call.init, sim_call.create_player,
            sim_call.tick
              [{ PlayerID := 0, UnitIDs := [3, 5], Target := { X := 100, Y := 200 } }]],
          NextTickTime := 40000 } : game_state (List sim_call)).Allocator.Used
        = sample_active.Allocator.Used :=
  ⟨rfl, rfl,
   (UpdateGame_restores_arena sample_headers trace_api sample_stale 20000 false
      [net_event.message 7 (net_message.order [3, 5] { X := 100, Y := 200 }),
       net_event.message 9 (net_message.order [4] { X := 1, Y := 2 })]
      [] true sample_active _ rfl).1⟩

/-! ## A connect event on a full roster -/

/-- C17: with `PLAYERS_MAX` players in the roster, whatever the mode, draining a
connect event changes nothing: the state after the drain is the state before
(roster count and entries, mode, staging queue, tick deadline), and the rest of
the events are drained as if the connect had not been there.  The drain has no
access to the outbound queue. -/
theorem ProcessNetEvents_connect_refused_when_full {σ : Type} (h : headers)
    (s : game_state σ) (c : net_client_id)
    (hfull : s.PlayerSet.Count = PLAYERS_MAX) :
    ProcessNetEvents h s [net_event.connect c] = some s ∧
      ∀ Events, ProcessNetEvents h s (net_event.connect c :: Events) =
        ProcessNetEvents h s Events := by
  have hno : ¬ (s.PlayerSet.Count ≠ PLAYERS_MAX) := fun hne => hne hfull
  constructor
  · simp only [ProcessNetEvents, if_neg hno]
  · intro Events
    simp only [ProcessNetEvents, if_neg hno]

/-- Client 9 is refused by the running sample game, whose roster holds client 7. -/
theorem ProcessNetEvents_connect_refused_when_full_witness :
    sample_active.PlayerSet.Count = PLAYERS_MAX ∧
      ProcessNetEvents sample_headers sample_active [net_event.connect 9] = some sample_active :=
  ⟨rfl, (ProcessNetEvents_connect_refused_when_full sample_headers sample_active 9 rfl).1⟩

/-! ## The state `InitGame` produces -/

/-- C14 fails on the code: over a region large enough for the game state and
the 20 KiB staging storage, `InitGame` sets up the arena, empties the staging
queue and sets the roster count to 0, but it never writes the mode: the mode of
the state it produces is whatever the region held. -/
theorem InitGame_keeps_prior_mode {σ : Type} (h : headers) (MemoryLength : memsize)
    (Prior : game_state σ)
    (hrange : MemoryLength < MEMSIZE_RANGE)
    (hsize : h.sizeof_game_state + 1024 * 20 ≤ MemoryLength) :
    InitGame h MemoryLength Prior =
        some { Prior with
          Allocator := { Length := MemoryLength - h.sizeof_game_state, Used := 1024 * 20 },
          OrderQueue := [],
          PlayerSet := { Prior.PlayerSet with Count := 0 } } ∧
      ∀ s, InitGame h MemoryLength Prior = some s →
        s.Mode = Prior.Mode ∧ s.PlayerSet.Count = 0 ∧ s.OrderQueue = [] := by
  have hR : MEMSIZE_RANGE = 18446744073709551616 := rfl
  have hlen : (MemoryLength + MEMSIZE_RANGE - h.sizeof_game_state % MEMSIZE_RANGE)
      % MEMSIZE_RANGE = MemoryLength - h.sizeof_game_state := by
    rw [hR] at hrange ⊢
    simp only [memsize] at *
    omega
  have hroom : 1024 * 20 ≤ GetLinearAllocatorFree
      { Length := MemoryLength - h.sizeof_game_state, Used := 0 } := by
    simp only [GetLinearAllocatorFree, memsize] at *
    omega
  have hinit : InitGame h MemoryLength Prior =
      some { Prior with
        Allocator := { Length := MemoryLength - h.sizeof_game_state, Used := 1024 * 20 },
        OrderQueue := [],
        PlayerSet := { Prior.PlayerSet with Count := 0 } } := by
    simp only [InitGame, hlen, LinearAllocate_of_le _ _ hroom, Option.bind_eq_bind,
      Option.some_bind, InitLinearAllocator, InitChunkList, InitPlayerSet, Nat.zero_add]
  refine ⟨hinit, ?_⟩
  intro s hs
  rw [hinit] at hs
  simp only [Option.some.injEq] at hs
  rw [← hs]
  exact ⟨rfl, rfl, rfl⟩

/-- Over a region of 100000 bytes whose mode field holds `game_mode_active`,
`InitGame` produces a state in `game_mode_active`. -/
theorem InitGame_keeps_prior_mode_witness :
    InitGame sample_headers 100000 stale_memory =
        some { sample_initial with Mode := game_mode_active } ∧
      ({ sample_initial with Mode := game_mode_active } : game_state (List sim_call)).Mode
        ≠ game_mode_waiting_for_clients :=
  ⟨(InitGame_keeps_prior_mode sample_headers 100000 stale_memory (by decide) (by decide)).1,
   by decide⟩

/-- A game initialised over the region whose mode field held
`game_mode_active` never waits for clients: its first update, without any
event, finds an active game with an empty roster, emits `shutdown` and stops. -/
theorem UpdateGame_after_stale_init_stops :
    UpdateGame sample_headers trace_api sample_stale 0 false [] [] true
        { sample_initial with Mode := game_mode_active } =
      some { State := { sample_initial with Mode := game_mode_stopped },
             Commands := [net_command.shutdown], Running := false, Delay := 1000 } := by
  rfl

/-! ## Updates without events before the deadline -/

/-- The running sample game is reachable: connect(7) at time 0 on the fresh
game. -/
theorem sample_active_reachable : Reachable sample_headers trace_api sample_active :=
  Reachable.update sample_stale 0 false [net_event.connect 7] [] true sample_initial
    { State := sample_active, Commands := [net_command.send 7 (net_message.start 1 0)],
      Running := true, Delay := 1000 }
    (Reachable.init 100000 zeroed_memory sample_initial rfl rfl) rfl

/-- The stopped sample game is reachable: client 7 leaves the running game at
time 5000. -/
theorem sample_stopped_reachable : Reachable sample_headers trace_api sample_stopped :=
  Reachable.update sample_stale 5000 false [net_event.disconnect 7] [] true sample_active
    { State := sample_stopped, Commands := [net_command.shutdown],
      Running := false, Delay := 1000 }
    sample_active_reachable rfl

/-- C13, as stated, fails: the stopped sample game is reachable, and an update
of it with no event, no termination request and a time before the tick
deadline appends a `shutdown` command. -/
theorem UpdateGame_stopped_repeats_shutdown :
    Reachable sample_headers trace_api sample_stopped ∧
      6000 < sample_stopped.NextTickTime ∧
      UpdateGame sample_headers trace_api sample_stale 6000 false [] [] false sample_stopped =
        some { State := sample_stopped, Commands := [net_command.shutdown],
               Running := false, Delay := 1000 } :=
  ⟨sample_stopped_reachable, by decide, rfl⟩

/-- An update with no event and no termination request, before the tick
deadline, of a reachable state that is waiting for clients or has a non-empty
roster changes nothing. -/
theorem UpdateGame_idle {σ : Type} (h : headers) (api : simulation_api σ)
    (Stale : memsize → simulation_order) (Time : uusec64)
    (Commands : chunk_list net_command) (Running : Bool) (s : game_state σ)
    (hs : Reachable h api s)
    (hroster : s.Mode = game_mode_waiting_for_clients ∨ s.PlayerSet.Count ≠ 0)
    (htime : Time < s.NextTickTime) :
    UpdateGame h api Stale Time false [] Commands Running s =
      some { State := s, Commands := Commands, Running := Running, Delay := 1000 } := by
  have hg1 : ¬ (s.Mode ≠ game_mode_disconnecting ∧ false = true) := fun hx =>
    absurd hx.2 (by decide)
  have hg2 : ¬ (s.Mode ≠ game_mode_waiting_for_clients ∧ s.PlayerSet.Count = 0) := by
    rintro ⟨hw, hc⟩
    rcases hroster with hw2 | hc2
    · exact hw hw2
    · exact hc2 hc
  have hg3 : ¬ (s.Mode = game_mode_waiting_for_clients ∧ s.PlayerSet.Count = PLAYERS_MAX) := by
    rintro ⟨hw, hc⟩
    have h0 := (Reachable_count h api s hs).2 hw
    rw [h0] at hc
    exact absurd hc (by decide)
  have hg5 : ¬ (Time ≥ s.NextTickTime) := Nat.not_le.mpr htime
  unfold UpdateGame
  simp only [ProcessNetEvents, Option.bind_eq_bind, Option.some_bind]
  rw [if_neg hg1, if_neg hg2, if_neg hg3]
  by_cases hg4 : s.Mode = game_mode_active
  · rw [if_pos hg4, if_neg hg5]
  · rw [if_neg hg4]
    simp only [ite_self]

/-- C13, amended: for every reachable state that is waiting for clients or has
a non-empty roster, two updates in succession with an empty event queue, no
termination request and times before the tick deadline both return, append no
command and leave the state as it was. -/
theorem UpdateGame_idle_twice {σ : Type} (h : headers) (api : simulation_api σ)
    (Stale1 Stale2 : memsize → simulation_order) (Time1 Time2 : uusec64)
    (Commands : chunk_list net_command) (Running : Bool) (s : game_state σ)
    (hs : Reachable h api s)
    (hroster : s.Mode = game_mode_waiting_for_clients ∨ s.PlayerSet.Count ≠ 0)
    (htime1 : Time1 < s.NextTickTime) (htime2 : Time2 < s.NextTickTime) :
    ∃ r1 r2,
      UpdateGame h api Stale1 Time1 false [] Commands Running s = some r1 ∧
      UpdateGame h api Stale2 Time2 false [] r1.Commands r1.Running r1.State = some r2 ∧
      r1.Commands = Commands ∧ r2.Commands = Commands ∧
      r1.State = s ∧ r2.State = s :=
  ⟨{ State := s, Commands := Commands, Running := Running, Delay := 1000 },
   { State := s, Commands := Commands, Running := Running, Delay := 1000 },
   UpdateGame_idle h api Stale1 Time1 Commands Running s hs hroster htime1,
   UpdateGame_idle h api Stale2 Time2 Commands Running s hs hroster htime2,
   rfl, rfl, rfl, rfl⟩

/-- Two idle updates of the running sample game, at 5000 and 19999, before its
deadline of 20000. -/
theorem UpdateGame_idle_twice_witness :
    (∃ r1 r2,
      UpdateGame sample_headers trace_api sample_stale 5000 false [] [] true sample_active
        = some r1 ∧
      UpdateGame sample_headers trace_api sample_stale 19999 false [] r1.Commands r1.Running
        r1.State = some r2 ∧
      r1.Commands = [] ∧ r2.Commands = [] ∧
      r1.State = sample_active ∧ r2.State = sample_active) ∧
    UpdateGame sample_headers trace_api sample_stale 19999 false [] [] true sample_active =
      some { State := sample_active, Commands := [], Running := true, Delay := 1000 } :=
  ⟨UpdateGame_idle_twice sample_headers trace_api sample_stale sample_stale 5000 19999 []
      true sample_active sample_active_reachable (Or.inr (by decide)) (by decide) (by decide),
   rfl⟩

/-! ## Well-formedness of the roster -/

/-- C16: in every reachable state the roster count is at most `PLAYERS_MAX` and
the client ids of the entries in use are pairwise distinct. -/
theorem Reachable_roster_well_formed {σ : Type} (h : headers) (api : simulation_api σ)
    (s : game_state σ) (hs : Reachable h api s) :
    s.PlayerSet.Count ≤ PLAYERS_MAX ∧ ClientIDsDistinct s.PlayerSet := by
  have hle := (Reachable_count h api s hs).1
  refine ⟨hle, ?_⟩
  intro I J hI hJ _
  have hI1 : I < 1 := Nat.lt_of_lt_of_le hI hle
  have hJ1 : J < 1 := Nat.lt_of_lt_of_le hJ hle
  rw [Nat.lt_one_iff.mp hI1, Nat.lt_one_iff.mp hJ1]

/-- The fresh sample game after connect(7), connect(7), disconnect(99) in one
update holds client 7 once. -/
theorem Reachable_roster_well_formed_witness :
    UpdateGame sample_headers trace_api sample_stale 0 false
        [net_event.connect 7, net_event.connect 7, net_event.disconnect 99] [] true
        sample_initial =
      some { State := sample_active,
             Commands := [net_command.send 7 (net_message.start 1 0)],
             Running := true, Delay := 1000 } ∧
      sample_active.PlayerSet.Count ≤ PLAYERS_MAX ∧
      ClientIDsDistinct sample_active.PlayerSet :=
  ⟨rfl,
   Reachable_roster_well_formed sample_headers trace_api sample_active
     (Reachable.update sample_stale 0 false
       [net_event.connect 7, net_event.connect 7, net_event.disconnect 99] [] true
       sample_initial
       { State := sample_active, Commands := [net_command.send 7 (net_message.start 1 0)],
         Running := true, Delay := 1000 }
       (Reachable.init 100000 zeroed_memory sample_initial rfl rfl) rfl)⟩

/-! ## Draining a disconnect event -/

/-- With at most one entry in use, looking a client up succeeds exactly when
the roster holds one entry and that entry is the client's. -/
theorem FindPlayerByClientID_small (Set : player_set) (c : net_client_id)
    (hle : Set.Count ≤ PLAYERS_MAX) :
    FindPlayerByClientID Set c =
      if Set.Count = 1 ∧ (Set.At 0).ClientID = c then some 0 else none := by
  have hle1 : Set.Count ≤ 1 := hle
  rcases Nat.le_one_iff_eq_zero_or_eq_one.mp hle1 with h0 | h1
  · simp [FindPlayerByClientID, h0]
  · by_cases hc : (Set.At 0).ClientID = c
    · simp [FindPlayerByClientID, h1, List.range_succ, hc]
    · simp [FindPlayerByClientID, h1, List.range_succ, hc]

/-- C18: on a roster within its capacity (at most `PLAYERS_MAX` entries in use,
which makes the client ids distinct), draining disconnect(c) returns a state in
which `FindPlayerByClientID` fails for `c`, every other client that was found
is still found, with the same simulation id, the count is one lower if `c` was
in the roster, and the whole state is unchanged if it was not.  Nothing but
the roster count changes in either case, and the drain has no access to the
outbound queue. -/
theorem ProcessNetEvents_disconnect {σ : Type} (h : headers) (s : game_state σ)
    (c : net_client_id) (hle : s.PlayerSet.Count ≤ PLAYERS_MAX) :
    ∃ s1, ProcessNetEvents h s [net_event.disconnect c] = some s1 ∧
      FindPlayerByClientID s1.PlayerSet c = none ∧
      (∀ c2, c2 ≠ c → (FindPlayerByClientID s.PlayerSet c2).isSome = true →
        (FindPlayerByClientID s1.PlayerSet c2).isSome = true ∧
          FindSimIDByClientID h s1.PlayerSet c2 = FindSimIDByClientID h s.PlayerSet c2) ∧
      ((FindPlayerByClientID s.PlayerSet c).isSome = true →
        s1.PlayerSet.Count + 1 = s.PlayerSet.Count) ∧
      (FindPlayerByClientID s.PlayerSet c = none → s1 = s) ∧
      s1.PlayerSet.Players = s.PlayerSet.Players ∧
      s1.Mode = s.Mode ∧ s1.OrderQueue = s.OrderQueue ∧ s1.Allocator = s.Allocator ∧
      s1.NextTickTime = s.NextTickTime ∧ s1.Sim = s.Sim := by
  have hfind := FindPlayerByClientID_small s.PlayerSet c hle
  by_cases hin : s.PlayerSet.Count = 1 ∧ (s.PlayerSet.At 0).ClientID = c
  · rw [if_pos hin] at hfind
    refine ⟨{ s with PlayerSet := RemovePlayer s.PlayerSet 0 }, ?_, ?_, ?_, ?_, ?_,
      rfl, rfl, rfl, rfl, rfl, rfl⟩
    · simp only [ProcessNetEvents, hfind]
    · simp [FindPlayerByClientID, RemovePlayer, hin.1]
    · intro c2 hc2 hfound
      rw [FindPlayerByClientID_small s.PlayerSet c2 hle] at hfound
      have hno : ¬ (s.PlayerSet.Count = 1 ∧ (s.PlayerSet.At 0).ClientID = c2) := by
        rintro ⟨-, hc0⟩
        exact hc2 (by rw [← hc0, hin.2])
      rw [if_neg hno] at hfound
      exact absurd hfound (by simp)
    · intro _
      simp only [RemovePlayer, hin.1]
    · intro hnone
      rw [hfind] at hnone
      exact absurd hnone (by simp)
  · rw [if_neg hin] at hfind
    refine ⟨s, ?_, hfind, ?_, ?_, fun _ => rfl, rfl, rfl, rfl, rfl, rfl, rfl⟩
    · simp only [ProcessNetEvents, hfind]
    · intro c2 _ hfound
      exact ⟨hfound, rfl⟩
    · intro hsome
      rw [hfind] at hsome
      exact absurd hsome (by simp)

/-- Client 7 leaves the running sample game: it is no longer found and the
count drops from 1 to 0. -/
theorem ProcessNetEvents_disconnect_witness :
    sample_active.PlayerSet.Count ≤ PLAYERS_MAX ∧
      (∃ s1, ProcessNetEvents sample_headers sample_active [net_event.disconnect 7] = some s1 ∧
        FindPlayerByClientID s1.PlayerSet 7 = none) ∧
      ProcessNetEvents sample_headers sample_active [net_event.disconnect 7] =
        some { sample_active with
          PlayerSet := { Players := [{ SimID := 0, ClientID := 7 }], Count := 0 } } := by
  obtain ⟨s1, h1, h2, -⟩ :=
    ProcessNetEvents_disconnect sample_headers sample_active 7 (by decide)
  exact ⟨by decide, ⟨s1, h1, h2⟩, rfl⟩

/-! ## Commands an update appends -/

/-- C19: an update that begins in a mode other than
`game_mode_waiting_for_clients` keeps the roster the event drain left (a client
added by a connect event keeps the simulation id `AddPlayer` wrote), changes
the simulation by at most one `TickSimulation` call (no `InitSimulation`, no
`SimulationCreatePlayer`), and appends nothing, one `shutdown`, or one
`order_list` broadcast to the roster: never a `send`. -/
theorem UpdateGame_no_start_outside_waiting {σ : Type} (h : headers) (api : simulation_api σ)
    (Stale : memsize → simulation_order) (Time : uusec64) (Term : Bool)
    (Events : chunk_list net_event) (Commands : chunk_list net_command) (Running : Bool)
    (s s1 : game_state σ) (r : update_result σ)
    (hmode : s.Mode ≠ game_mode_waiting_for_clients)
    (hev : ProcessNetEvents h s Events = some s1)
    (hr : UpdateGame h api Stale Time Term Events Commands Running s = some r) :
    r.State.PlayerSet = s1.PlayerSet ∧
      (r.State.Sim = s.Sim ∨
        r.State.Sim = api.TickSimulation s.Sim (TickOrderList Stale s1.OrderQueue)) ∧
      (∃ New, r.Commands = Commands ++ New ∧
        (New = [] ∨ New = [net_command.shutdown] ∨
          New = [net_command.broadcast (BroadcastIDs s1.PlayerSet)
            (net_message.order_list ((TickOrderList Stale s1.OrderQueue).map NetOrderOf))]) ∧
        ∀ c m, net_command.send c m ∉ New) := by
  obtain ⟨hm, -, hs, -⟩ := ProcessNetEvents_frame h Events s s1 hev
  rw [← hm] at hmode
  rw [← hs]
  rcases UpdateGame_cases h api Stale Time Term Events Commands Running s s1 r hev hr with
    ⟨-, -, hr⟩ | ⟨-, -, -, hr⟩ | ⟨hw, -, -, -⟩ | ⟨-, -, -, -, hr⟩ | ⟨-, -, -, -, hr⟩
  · rw [hr]
    exact ⟨rfl, Or.inl rfl, [net_command.shutdown], rfl, Or.inr (Or.inl rfl), by simp⟩
  · rw [hr]
    refine ⟨rfl, Or.inl rfl, ?_⟩
    by_cases hd : s1.Mode ≠ game_mode_disconnecting
    · exact ⟨[net_command.shutdown], by simp only [if_pos hd], Or.inr (Or.inl rfl), by simp⟩
    · exact ⟨[], by simp only [if_neg hd, List.append_nil], Or.inl rfl, by simp⟩
  · exact absurd hw hmode
  · rw [hr]
    exact ⟨rfl, Or.inr rfl, _, rfl, Or.inr (Or.inr rfl), by simp⟩
  · rw [hr]
    exact ⟨rfl, Or.inl rfl, [], by simp, Or.inl rfl, by simp⟩

/-- Client 7 leaves and client 9 joins the running sample game in the update
that runs the first tick: client 9 gets no `start`, keeps simulation id 0, and
the `order_list` broadcast goes to it. -/
theorem UpdateGame_no_start_outside_waiting_witness :
    UpdateGame sample_headers trace_api sample_stale 20000 false
        [net_event.disconnect 7, net_event.connect 9] [] true sample_active =
      some { State := { sample_late_join with
               Sim := [sim_call.init, sim_call.create_player, sim_call.tick []],
               NextTickTime := 40000 },
             Commands := [net_command.broadcast [9] (net_message.order_list [])],
             Running := true, Delay := 1000 } ∧
      ({ sample_late_join with
          Sim := [sim_call.init, sim_call.create_player, sim_call.tick []],
          NextTickTime := 40000 } : game_state (List sim_call)).PlayerSet
        = sample_late_join.PlayerSet :=
  ⟨rfl,
   (UpdateGame_no_start_outside_waiting sample_headers trace_api sample_stale 20000 false
      [net_event.disconnect 7, net_event.connect 9] [] true sample_active sample_late_join _
      (by decide) rfl rfl).1⟩

/-- C20: the commands an update appends contain a broadcast only if the roster
is non-empty after the event drain, and every broadcast among them is
addressed to the client ids of the roster slots `0 .. Count-1`, in that order;
the recipient list is never empty. -/
theorem UpdateGame_broadcast_recipients {σ : Type} (h : headers) (api : simulation_api σ)
    (Stale : memsize → simulation_order) (Time : uusec64) (Term : Bool)
    (Events : chunk_list net_event) (Commands : chunk_list net_command) (Running : Bool)
    (s s1 : game_state σ) (r : update_result σ)
    (hev : ProcessNetEvents h s Events = some s1)
    (hr : UpdateGame h api Stale Time Term Events Commands Running s = some r) :
    ∃ New, r.Commands = Commands ++ New ∧
      ∀ IDs m, net_command.broadcast IDs m ∈ New →
        1 ≤ s1.PlayerSet.Count ∧
          IDs = (List.range s1.PlayerSet.Count).map (fun I => (s1.PlayerSet.At I).ClientID) ∧
          IDs ≠ [] := by
  rcases UpdateGame_cases h api Stale Time Term Events Commands Running s s1 r hev hr with
    ⟨-, -, hr⟩ | ⟨-, -, -, hr⟩ | ⟨-, -, -, hr⟩ | ⟨-, -, hco, -, hr⟩ | ⟨-, -, -, -, hr⟩
  · rw [hr]
    exact ⟨[net_command.shutdown], rfl, by simp⟩
  · rw [hr]
    by_cases hd : s1.Mode ≠ game_mode_disconnecting
    · exact ⟨[net_command.shutdown], by simp only [if_pos hd], by simp⟩
    · exact ⟨[], by simp only [if_neg hd, List.append_nil], by simp⟩
  · rw [hr]
    exact ⟨_, rfl, by simp⟩
  · rw [hr]
    refine ⟨_, rfl, ?_⟩
    intro IDs m hmem
    simp only [List.mem_singleton, net_command.broadcast.injEq] at hmem
    have hpos : 1 ≤ s1.PlayerSet.Count := Nat.one_le_iff_ne_zero.mpr hco
    refine ⟨hpos, hmem.1, ?_⟩
    rw [hmem.1]
    intro hnil
    have hlen : (BroadcastIDs s1.PlayerSet).length = s1.PlayerSet.Count := by
      simp only [BroadcastIDs, List.length_map, List.length_range]
    rw [hnil] at hlen
    exact hco hlen.symm
  · rw [hr]
    exact ⟨[], by simp, by simp⟩

/-- The first tick of the running sample game broadcasts to client 7. -/
theorem UpdateGame_broadcast_recipients_witness :
    ∃ New, [net_command.broadcast [7] (net_message.order_list [])] = [] ++ New ∧
      ∀ IDs m, net_command.broadcast IDs m ∈ New →
        1 ≤ sample_active.PlayerSet.Count ∧
          IDs = (List.range sample_active.PlayerSet.Count).map
            (fun I => (sample_active.PlayerSet.At I).ClientID) ∧
          IDs ≠ [] :=
  UpdateGame_broadcast_recipients sample_headers trace_api sample_stale 20000 false [] [] true
    sample_active sample_active
    { State := { sample_active with
        Sim := [sim_call.init, sim_call.create_player, sim_call.tick []],
        NextTickTime := 40000 },
      Commands := [net_command.broadcast [7] (net_message.order_list [])],
      Running := true, Delay := 1000 }
    rfl rfl

end Lockstep
